import Mathlib

/-!
Verification development for the `cim-domain-policy` repository.

The Rust source is shallowly embedded in Lean 4:

* `Uuid` values are modelled as `Nat` (freshly generated v7 UUIDs are threaded
  in as explicit parameters wherever their value can matter, and fixed to `0`
  where no claim can observe them);
* `DateTime<Utc>` is modelled as an `Int` timestamp on an abstract timeline;
  every call to `Utc::now()` in the source becomes an explicit `now` parameter;
* `f64` payloads are modelled as `Rat` (IEEE NaN/infinity are not modelled;
  no property considered here exercises them);
* `HashMap`/`HashSet` collections are modelled as association lists / lists,
  with lookup returning the first binding and set-emptiness tested by
  membership (key sets in the source are built with unique keys);
* Rust `Result<T, E>` is `Except E T`, `Option<T>` is `Option T`;
* `&mut self` methods that can fail without mutating are modelled as functions
  returning the pair (result, final state).

Definitions keep the source's names (snake_case) except where Lean reserves
the word.
-/

namespace PolicyDomain

/-- UUIDs are modelled as natural numbers. -/
abbrev Uuid := Nat

/-- `DateTime<Utc>` is modelled as an integer timestamp. -/
abbrev Timestamp := Int

/-- `cim_domain::MessageIdentity` (the `CorrelationId::Single` form used
throughout this repository). -/
structure MessageIdentity where
  correlation_id : Uuid
  causation_id : Uuid
  message_id : Uuid
deriving DecidableEq

/-- `create_root_command` from `sagas/mod.rs`: builds a `MessageIdentity` from
one freshly generated UUID (the fresh UUID is a parameter here). -/
def create_root_command (fresh : Uuid) : MessageIdentity :=
  { correlation_id := fresh, causation_id := fresh, message_id := fresh }

/-- `value_objects::Value`: the closed value union used by rule expressions and
evaluation contexts.  `Float(f64)` carries a `Rat`; `Map` carries an
association list (the source's `HashMap<String, Value>`). -/
inductive Value where
  | null : Value
  | bool (b : Bool) : Value
  | integer (i : Int) : Value
  | float (f : Rat) : Value
  | string (s : String) : Value
  | dateTime (t : Timestamp) : Value
  | list (xs : List Value) : Value
  | map (m : List (String × Value)) : Value

mutual

/-- Structural equality of `Value`s, mirroring the derived `PartialEq` of the
source (map equality is positional here; no claim compares maps). -/
def Value.beq : Value → Value → Bool
  | .null, .null => true
  | .bool a, .bool b => a == b
  | .integer a, .integer b => a == b
  | .float a, .float b => a == b
  | .string a, .string b => a == b
  | .dateTime a, .dateTime b => a == b
  | .list a, .list b => Value.listBeq a b
  | .map a, .map b => Value.mapBeq a b
  | _, _ => false

/-- Pointwise equality of value lists (helper for `Value.beq`). -/
def Value.listBeq : List Value → List Value → Bool
  | [], [] => true
  | a :: xs, b :: ys => Value.beq a b && Value.listBeq xs ys
  | _, _ => false

/-- Pointwise equality of value maps (helper for `Value.beq`). -/
def Value.mapBeq : List (String × Value) → List (String × Value) → Bool
  | [], [] => true
  | (k1, v1) :: xs, (k2, v2) :: ys => k1 == k2 && Value.beq v1 v2 && Value.mapBeq xs ys
  | _, _ => false

end

instance : BEq Value := ⟨Value.beq⟩

/-- Rust's `str::contains` (substring test), used by `Contains`/`Matches`. -/
def strContains (s pat : String) : Bool :=
  s.toList.tails.any (fun t => pat.toList.isPrefixOf t)

/-- `value_objects::PolicyId`. -/
structure PolicyId where
  uuid : Uuid
deriving DecidableEq, BEq

/-- `value_objects::PolicySetId`. -/
structure PolicySetId where
  uuid : Uuid
deriving DecidableEq, BEq

/-- `value_objects::ExemptionId`. -/
structure ExemptionId where
  uuid : Uuid
deriving DecidableEq, BEq

/-- `value_objects::PolicyStatus`: lifecycle status of a policy. -/
inductive PolicyStatus where
  | draft
  | underReview
  | approved
  | active
  | suspended
  | revoked
  | archived
deriving DecidableEq

/-- `value_objects::ResourceType`. -/
inductive ResourceType where
  | certificate
  | key
  | secret
  | document
  | service
  | network
  | custom (s : String)
deriving DecidableEq

/-- `value_objects::OperationType`. -/
inductive OperationType where
  | certificateIssuance
  | certificateRenewal
  | certificateRevocation
  | keyGeneration
  | keyRotation
  | keyExport
  | read
  | write
  | delete
  | execute
  | createPolicy
  | modifyPolicy
  | deletePolicy
  | grantExemption
  | custom (s : String)
deriving DecidableEq

/-- `value_objects::PolicyTarget`: what/who a policy applies to. -/
inductive PolicyTarget where
  | global
  | organization (id : Uuid)
  | organizationUnit (id : Uuid)
  | role (r : String)
  | resource (r : ResourceType)
  | operation (o : OperationType)
  | composite (targets : List PolicyTarget)

/-- `value_objects::EnforcementLevel` (ordered as in the source derive). -/
inductive EnforcementLevel where
  | advisory
  | soft
  | hard
  | critical
deriving DecidableEq

/-- `value_objects::Severity` (ordered as in the source derive). -/
inductive Severity where
  | info
  | low
  | medium
  | high
  | critical
deriving DecidableEq

/-- Numeric rank of a `Severity`, realizing the source's derived `Ord`. -/
def Severity.rank : Severity → Nat
  | .info => 0
  | .low => 1
  | .medium => 2
  | .high => 3
  | .critical => 4

/-- `value_objects::Violation`: one failed rule evaluation. -/
structure Violation where
  rule_id : Uuid
  rule_description : String
  severity : Severity
  details : String
  suggested_remediation : Option String
deriving DecidableEq

/-- `value_objects::ComplianceResult`. -/
inductive ComplianceResult where
  | compliant
  | nonCompliant (violations : List Violation)
  | compliantWithExemption (exemption_id : ExemptionId)
  | partiallyCompliant (passed failed : Nat)
deriving DecidableEq

/-- `ComplianceResult::is_compliant`. -/
def ComplianceResult.is_compliant : ComplianceResult → Bool
  | .compliant => true
  | .compliantWithExemption _ => true
  | _ => false

/-- `value_objects::RuleExpression`: the closed rule-expression AST.
Constructor names track the source variants; `In`/`Exists`/`NotExists` are
renamed (`inVals`, `existsField`, `notExistsField`) and `prefix` is renamed
`pre` because Lean reserves those words. -/
inductive RuleExpression where
  | equal (field : String) (value : Value)
  | notEqual (field : String) (value : Value)
  | greaterThan (field : String) (value : Value)
  | greaterThanOrEqual (field : String) (value : Value)
  | lessThan (field : String) (value : Value)
  | lessThanOrEqual (field : String) (value : Value)
  | and (exprs : List RuleExpression)
  | or (exprs : List RuleExpression)
  | not (expr : RuleExpression)
  | inVals (field : String) (values : List Value)
  | notIn (field : String) (values : List Value)
  | contains (field : String) (value : Value)
  | matches (field : String) (pattern : String)
  | startsWith (field : String) (pre : String)
  | endsWith (field : String) (suffix : String)
  | existsField (field : String)
  | notExistsField (field : String)
  | custom (predicate : String) (args : List (String × Value))

/-- `value_objects::PolicyMetadata`. -/
structure PolicyMetadata where
  created_by : String
  created_at : Timestamp
  last_modified_by : Option String
  last_modified_at : Option Timestamp
  tags : List String
  compliance_standards : List String
  documentation_url : Option String

/-- `PolicyMetadata::default()` (the source stamps `created_at` with
`Utc::now()`, threaded in as `now`). -/
def PolicyMetadata.default (now : Timestamp) : PolicyMetadata :=
  { created_by := ""
    created_at := now
    last_modified_by := none
    last_modified_at := none
    tags := []
    compliance_standards := []
    documentation_url := none }

/-- `value_objects::EvaluationContext`: input to evaluation.  The source's
`HashMap<String, Value>` field map is an association list. -/
structure EvaluationContext where
  fields : List (String × Value)
  requester : Option String
  timestamp : Timestamp
  environment : List (String × String)

/-- `EvaluationContext::get_field`. -/
def EvaluationContext.get_field (ctx : EvaluationContext) (key : String) : Option Value :=
  ctx.fields.lookup key

/-- `entities::RuleType`. -/
inductive RuleType where
  | constraint
  | requirement
  | validation
  | authorization
deriving DecidableEq

/-- `entities::PolicyRule`: one named constraint inside a policy. -/
structure PolicyRule where
  id : Uuid
  name : String
  description : String
  rule_type : RuleType
  expression : RuleExpression
  parameters : List (String × Value)
  severity : Severity
  error_message : Option String
  remediation_hint : Option String

/-- `entities::RuleResult`: result of evaluating a single rule. -/
structure RuleResult where
  rule_id : Uuid
  rule_name : String
  passed : Bool
  message : String
  severity : Severity
  actual_value : Option Value
  expected_value : Option Value

/-- `RuleResult::to_violation`. -/
def RuleResult.to_violation (r : RuleResult) : Violation :=
  { rule_id := r.rule_id
    rule_description := r.rule_name
    severity := r.severity
    details := r.message
    suggested_remediation := none }

/-- `entities::PolicyEvaluation`: result of one policy evaluation run. -/
structure PolicyEvaluation where
  id : Uuid
  policy_id : PolicyId
  evaluated_at : Timestamp
  context : EvaluationContext
  rule_results : List RuleResult
  overall_result : ComplianceResult
  execution_time_ms : Nat

/-- `PolicyEvaluation::new` (the fresh evaluation UUID is opaque to every
property here and is fixed to `0`; `evaluated_at` gets the ambient `now`). -/
def PolicyEvaluation.new (policy_id : PolicyId) (context : EvaluationContext)
    (now : Timestamp) : PolicyEvaluation :=
  { id := 0
    policy_id := policy_id
    evaluated_at := now
    context := context
    rule_results := []
    overall_result := .compliant
    execution_time_ms := 0 }

/-- `PolicyEvaluation::add_rule_result`.  Note the source collects the
violations of the rule results recorded so far BEFORE pushing the incoming
result. -/
def PolicyEvaluation.add_rule_result (e : PolicyEvaluation) (result : RuleResult) :
    PolicyEvaluation :=
  let violations := (e.rule_results.filter (fun r => !r.passed)).map RuleResult.to_violation
  let e' :=
    if !result.passed then
      { e with overall_result := ComplianceResult.nonCompliant violations }
    else e
  { e' with rule_results := e'.rule_results ++ [result] }

/-- `PolicyEvaluation::is_compliant`. -/
def PolicyEvaluation.is_compliant (e : PolicyEvaluation) : Bool :=
  e.overall_result.is_compliant

/-- `PolicyEvaluation::violations`: all violations recomputed from the
recorded rule results. -/
def PolicyEvaluation.violations (e : PolicyEvaluation) : List Violation :=
  (e.rule_results.filter (fun r => !r.passed)).map RuleResult.to_violation

/-- `entities::ConflictType`. -/
inductive ConflictType where
  | contradiction
  | overlap
  | impossible
  | ambiguous
deriving DecidableEq

/-- `events::PolicyCreated`. -/
structure PolicyCreated where
  event_id : Uuid
  identity : MessageIdentity
  policy_id : PolicyId
  name : String
  description : String
  policy_type : String
  created_by : String
  created_at : Timestamp
deriving DecidableEq

/-- `events::PolicyChange` (one audited field change). -/
structure PolicyChange where
  field : String
  old_value : Option String
  new_value : Option String
deriving DecidableEq

/-- `events::PolicyUpdated`. -/
structure PolicyUpdated where
  event_id : Uuid
  identity : MessageIdentity
  policy_id : PolicyId
  version : Nat
  changes : List PolicyChange
  updated_by : String
  updated_at : Timestamp
deriving DecidableEq

/-- `events::PolicyApproved`. -/
structure PolicyApproved where
  event_id : Uuid
  identity : MessageIdentity
  policy_id : PolicyId
  approved_by : String
  approved_at : Timestamp
  approval_notes : Option String
deriving DecidableEq

/-- `events::PolicyActivated`. -/
structure PolicyActivated where
  event_id : Uuid
  identity : MessageIdentity
  policy_id : PolicyId
  activated_by : String
  activated_at : Timestamp
  effective_from : Timestamp
  effective_until : Option Timestamp
deriving DecidableEq

/-- `events::PolicySuspended`. -/
structure PolicySuspended where
  event_id : Uuid
  identity : MessageIdentity
  policy_id : PolicyId
  suspended_by : String
  suspended_at : Timestamp
  reason : String
  expected_resume_date : Option Timestamp
deriving DecidableEq

/-- `events::PolicyRevoked`. -/
structure PolicyRevoked where
  event_id : Uuid
  identity : MessageIdentity
  policy_id : PolicyId
  revoked_by : String
  revoked_at : Timestamp
  reason : String
  immediate : Bool
deriving DecidableEq

/-- `events::PolicyArchived`. -/
structure PolicyArchived where
  event_id : Uuid
  identity : MessageIdentity
  policy_id : PolicyId
  archived_by : String
  archived_at : Timestamp
  retention_period_days : Option Nat
deriving DecidableEq

/-- `events::PolicyEvaluated`. -/
structure PolicyEvaluated where
  event_id : Uuid
  identity : MessageIdentity
  policy_id : PolicyId
  evaluation_id : Uuid
  evaluated_at : Timestamp
  context_hash : String
  result : ComplianceResult
  execution_time_ms : Nat
deriving DecidableEq

/-- `events::PolicyViolationDetected`. -/
structure PolicyViolationDetected where
  event_id : Uuid
  identity : MessageIdentity
  policy_id : PolicyId
  violation_id : Uuid
  detected_at : Timestamp
  violations : List Violation
  severity : Severity
  enforcement_action : Option String
deriving DecidableEq

/-- `events::PolicyCompliancePassed`. -/
structure PolicyCompliancePassed where
  event_id : Uuid
  identity : MessageIdentity
  policy_id : PolicyId
  evaluation_id : Uuid
  passed_at : Timestamp
  rules_evaluated : Nat
deriving DecidableEq

/-- `events::PolicyExemptionGranted`. -/
structure PolicyExemptionGranted where
  event_id : Uuid
  identity : MessageIdentity
  exemption_id : ExemptionId
  policy_id : PolicyId
  granted_by : String
  granted_at : Timestamp
  reason : String
  valid_until : Timestamp
  risk_acceptance : Option String
deriving DecidableEq

/-- `events::PolicyExemptionRevoked`. -/
structure PolicyExemptionRevoked where
  event_id : Uuid
  identity : MessageIdentity
  exemption_id : ExemptionId
  policy_id : PolicyId
  revoked_by : String
  revoked_at : Timestamp
  reason : String
deriving DecidableEq

/-- `events::PolicyExemptionExpired`. -/
structure PolicyExemptionExpired where
  event_id : Uuid
  identity : MessageIdentity
  exemption_id : ExemptionId
  policy_id : PolicyId
  expired_at : Timestamp
deriving DecidableEq

/-- `events::PolicySetCreated`. -/
structure PolicySetCreated where
  event_id : Uuid
  identity : MessageIdentity
  policy_set_id : PolicySetId
  name : String
  description : String
  created_by : String
  created_at : Timestamp
deriving DecidableEq

/-- `events::PolicyAddedToSet`. -/
structure PolicyAddedToSet where
  event_id : Uuid
  identity : MessageIdentity
  policy_set_id : PolicySetId
  policy_id : PolicyId
  added_by : String
  added_at : Timestamp
deriving DecidableEq

/-- `events::PolicyRemovedFromSet`. -/
structure PolicyRemovedFromSet where
  event_id : Uuid
  identity : MessageIdentity
  policy_set_id : PolicySetId
  policy_id : PolicyId
  removed_by : String
  removed_at : Timestamp
  reason : Option String
deriving DecidableEq

/-- `events::PolicyConflictDetected`. -/
structure PolicyConflictDetected where
  event_id : Uuid
  identity : MessageIdentity
  conflict_id : Uuid
  policy_ids : List PolicyId
  conflict_type : ConflictType
  detected_at : Timestamp
deriving DecidableEq

/-- `events::PolicyEvent`: the base event union of the policy domain. -/
inductive PolicyEvent where
  | policyCreated (e : PolicyCreated)
  | policyUpdated (e : PolicyUpdated)
  | policyApproved (e : PolicyApproved)
  | policyActivated (e : PolicyActivated)
  | policySuspended (e : PolicySuspended)
  | policyRevoked (e : PolicyRevoked)
  | policyArchived (e : PolicyArchived)
  | policyEvaluated (e : PolicyEvaluated)
  | policyViolationDetected (e : PolicyViolationDetected)
  | policyCompliancePassed (e : PolicyCompliancePassed)
  | policyExemptionGranted (e : PolicyExemptionGranted)
  | policyExemptionRevoked (e : PolicyExemptionRevoked)
  | policyExemptionExpired (e : PolicyExemptionExpired)
  | policySetCreated (e : PolicySetCreated)
  | policyAddedToSet (e : PolicyAddedToSet)
  | policyRemovedFromSet (e : PolicyRemovedFromSet)
  | policyConflictDetected (e : PolicyConflictDetected)
deriving DecidableEq

/-- `DomainEvent::event_type` for `PolicyEvent` (the type tag string). -/
def PolicyEvent.event_type : PolicyEvent → String
  | .policyCreated _ => "PolicyCreated"
  | .policyUpdated _ => "PolicyUpdated"
  | .policyApproved _ => "PolicyApproved"
  | .policyActivated _ => "PolicyActivated"
  | .policySuspended _ => "PolicySuspended"
  | .policyRevoked _ => "PolicyRevoked"
  | .policyArchived _ => "PolicyArchived"
  | .policyEvaluated _ => "PolicyEvaluated"
  | .policyViolationDetected _ => "PolicyViolationDetected"
  | .policyCompliancePassed _ => "PolicyCompliancePassed"
  | .policyExemptionGranted _ => "PolicyExemptionGranted"
  | .policyExemptionRevoked _ => "PolicyExemptionRevoked"
  | .policyExemptionExpired _ => "PolicyExemptionExpired"
  | .policySetCreated _ => "PolicySetCreated"
  | .policyAddedToSet _ => "PolicyAddedToSet"
  | .policyRemovedFromSet _ => "PolicyRemovedFromSet"
  | .policyConflictDetected _ => "PolicyConflictDetected"

/-- `crate::PolicyError`.  The enum itself lives outside the embedded modules;
only the `ValidationError` variant is ever constructed by the embedded code
(`aggregate.rs`), so only that variant is modelled. -/
inductive PolicyError where
  | validationError (msg : String)
deriving DecidableEq

/-- `aggregate::Policy`: the Policy aggregate root. -/
structure Policy where
  id : PolicyId
  name : String
  description : String
  version : Nat
  status : PolicyStatus
  rules : List PolicyRule
  target : PolicyTarget
  enforcement_level : EnforcementLevel
  effective_date : Option Timestamp
  expiry_date : Option Timestamp
  parent_policy_id : Option PolicyId
  metadata : PolicyMetadata

/-- `Policy::new` (the fresh `PolicyId::new()` and the `Utc::now()` stamp are
explicit parameters). -/
def Policy.new (fresh : PolicyId) (now : Timestamp) (name description : String) : Policy :=
  { id := fresh
    name := name
    description := description
    version := 1
    status := .draft
    rules := []
    target := .global
    enforcement_level := .advisory
    effective_date := none
    expiry_date := none
    parent_policy_id := none
    metadata := PolicyMetadata.default now }

/-- State transformation of `Policy::apply_event_pure` (the source clones the
policy, mutates the clone per event, and returns `Ok`; this is the mutation
part). -/
def Policy.applyEvent (p : Policy) (event : PolicyEvent) : Policy :=
  match event with
  | .policyCreated e =>
    { p with
      id := e.policy_id
      name := e.name
      description := e.description
      version := 1
      status := .draft
      rules := []
      target := .global
      enforcement_level := .advisory
      effective_date := none
      expiry_date := none
      parent_policy_id := none
      metadata := { p.metadata with created_at := e.created_at, created_by := e.created_by } }
  | .policyUpdated e =>
    { p with
      version := e.version
      metadata := { p.metadata with
        last_modified_at := some e.updated_at
        last_modified_by := some e.updated_by } }
  | .policyApproved _ => { p with status := .approved }
  | .policyActivated e =>
    { p with
      status := .active
      effective_date := some e.effective_from
      expiry_date := e.effective_until }
  | .policySuspended _ => { p with status := .suspended }
  | .policyRevoked _ => { p with status := .revoked }
  | .policyArchived _ => { p with status := .archived }
  | _ => p

/-- `Policy::apply_event_pure`: event-sourced reducer for the Policy
aggregate; evaluation, exemption and set events are recognized and ignored. -/
def Policy.apply_event_pure (p : Policy) (event : PolicyEvent) : Except PolicyError Policy :=
  .ok (p.applyEvent event)

/-- Guard of `Policy::update_status`: the explicit transition table matched by
the source. -/
def statusTransitionAllowed : PolicyStatus → PolicyStatus → Bool
  | .draft, .underReview => true
  | .underReview, .approved => true
  | .underReview, .draft => true
  | .approved, .active => true
  | .active, .suspended => true
  | .suspended, .active => true
  | .active, .revoked => true
  | .suspended, .revoked => true
  | .revoked, .archived => true
  | _, _ => false

/-- Debug name of a `PolicyStatus` (the `{:?}` rendering used in the source's
error message). -/
def PolicyStatus.debugName : PolicyStatus → String
  | .draft => "Draft"
  | .underReview => "UnderReview"
  | .approved => "Approved"
  | .active => "Active"
  | .suspended => "Suspended"
  | .revoked => "Revoked"
  | .archived => "Archived"

/-- `Policy::update_status`: validates the requested transition; on success
the status is updated, on failure a validation error is returned and the
policy is left unchanged (the `&mut self` method is modelled as returning the
pair of its `Result` and the final state). -/
def Policy.update_status (p : Policy) (status : PolicyStatus) :
    Except PolicyError Unit × Policy :=
  if statusTransitionAllowed p.status status then
    (.ok (), { p with status := status })
  else
    (.error (.validationError
      ("Invalid status transition from " ++ p.status.debugName ++ " to " ++ status.debugName)), p)

/-- `Policy::is_effective`: Active status, `effective_date` not in the future,
`expiry_date` not in the past (`Utc::now()` is the explicit `now`). -/
def Policy.is_effective (p : Policy) (now : Timestamp) : Bool :=
  if p.status != .active then false
  else
    let effOk := match p.effective_date with
      | some effective_date => !(now < effective_date)
      | none => true
    let expOk := match p.expiry_date with
      | some expiry_date => !(now > expiry_date)
      | none => true
    effOk && expOk

/-- `aggregate::CompositionRule`: how policies in a set are composed. -/
inductive CompositionRule where
  | all
  | any
  | majority
  | atLeast (n : Nat)
deriving DecidableEq

/-- `aggregate::ConflictResolution`: conflict resolution strategies. -/
inductive ConflictResolution where
  | mostRestrictive
  | leastRestrictive
  | firstWins
  | lastWins
  | failOnConflict
deriving DecidableEq

/-- `aggregate::PolicySet`. -/
structure PolicySet where
  id : PolicySetId
  name : String
  description : String
  policies : List PolicyId
  composition_rule : CompositionRule
  conflict_resolution : ConflictResolution
  status : PolicyStatus
  metadata : PolicyMetadata

/-- State transformation of `PolicySet::apply_event_pure`. -/
def PolicySet.applyEvent (s : PolicySet) (event : PolicyEvent) : PolicySet :=
  match event with
  | .policySetCreated e =>
    { s with
      id := e.policy_set_id
      name := e.name
      description := e.description
      policies := []
      composition_rule := .all
      conflict_resolution := .mostRestrictive
      status := .draft
      metadata := { s.metadata with created_at := e.created_at, created_by := e.created_by } }
  | .policyAddedToSet e =>
    if s.policies.contains e.policy_id then s
    else { s with policies := s.policies ++ [e.policy_id] }
  | .policyRemovedFromSet e =>
    { s with policies := s.policies.filter (fun id => id != e.policy_id) }
  | _ => s

/-- `PolicySet::apply_event_pure`. -/
def PolicySet.apply_event_pure (s : PolicySet) (event : PolicyEvent) :
    Except PolicyError PolicySet :=
  .ok (s.applyEvent event)

/-- `aggregate::ExemptionScope`. -/
inductive ExemptionScope where
  | global
  | organization (id : Uuid)
  | user (u : String)
  | resource (r : String)
  | operation (o : OperationType)
deriving DecidableEq

/-- `aggregate::ConditionOperator`. -/
inductive ConditionOperator where
  | equals
  | notEquals
  | greaterThan
  | lessThan
  | contains
  | notContains
deriving DecidableEq

/-- `aggregate::ExemptionCondition`. -/
structure ExemptionCondition where
  field : String
  operator : ConditionOperator
  value : Value

/-- `aggregate::ExemptionStatus`. -/
inductive ExemptionStatus where
  | active
  | expired
  | revoked (revoked_by : String) (revoked_at : Timestamp) (reason : String)
deriving DecidableEq

/-- `aggregate::PolicyExemption`: authorized exception to a policy. -/
structure PolicyExemption where
  id : ExemptionId
  policy_id : PolicyId
  reason : String
  justification : String
  risk_acceptance : Option String
  approved_by : String
  approved_at : Timestamp
  valid_from : Timestamp
  valid_until : Timestamp
  scope : ExemptionScope
  conditions : List ExemptionCondition
  status : ExemptionStatus

/-- State transformation of `PolicyExemption::apply_event_pure`: `Granted`
re-initializes the exemption, `Revoked`/`Expired` overwrite the status, all
other events leave the state unchanged.  There is no terminal-state guard. -/
def PolicyExemption.applyEvent (ex : PolicyExemption) (event : PolicyEvent) : PolicyExemption :=
  match event with
  | .policyExemptionGranted e =>
    { ex with
      id := e.exemption_id
      policy_id := e.policy_id
      reason := e.reason
      justification := ""
      risk_acceptance := e.risk_acceptance
      approved_by := e.granted_by
      approved_at := e.granted_at
      valid_from := e.granted_at
      valid_until := e.valid_until
      scope := .global
      conditions := []
      status := .active }
  | .policyExemptionRevoked e =>
    { ex with status := .revoked e.revoked_by e.revoked_at e.reason }
  | .policyExemptionExpired _ =>
    { ex with status := .expired }
  | _ => ex

/-- `PolicyExemption::apply_event_pure`. -/
def PolicyExemption.apply_event_pure (ex : PolicyExemption) (event : PolicyEvent) :
    Except PolicyError PolicyExemption :=
  .ok (ex.applyEvent event)

/-- `PolicyExemption::is_valid`: Active status and `now` inside the validity
window. -/
def PolicyExemption.is_valid (ex : PolicyExemption) (now : Timestamp) : Bool :=
  if ex.status != .active then false
  else decide (ex.valid_from ≤ now) && decide (now ≤ ex.valid_until)

/-- `services::policy_evaluator::EvaluationError`. -/
inductive EvaluationError where
  | policyNotFound (id : PolicyId)
  | policyNotActive (id : PolicyId)
  | missingContextField (field : String)
  | ruleEvaluationFailed (msg : String)
deriving DecidableEq

/-- `services::PolicyEvaluator`: holds the registered exemptions, keyed by
policy id (`HashMap` modelled as an association list). -/
structure PolicyEvaluator where
  exemptions : List (PolicyId × List PolicyExemption)

/-- `PolicyEvaluator::new`. -/
def PolicyEvaluator.new : PolicyEvaluator := { exemptions := [] }

/-- The exemptions the evaluator holds for one policy id
(`self.exemptions.get(&policy.id)`, with a missing key behaving as the empty
list, exactly as the source's `if let Some` skip does). -/
def PolicyEvaluator.exemptionsFor (ev : PolicyEvaluator) (pid : PolicyId) :
    List PolicyExemption :=
  (ev.exemptions.lookup pid).getD []

/-- `PolicyEvaluator::compare_values`: partial ordering on same-kind values
(integer/integer, float/float, lexical string/string); every other pairing is
incomparable. -/
def compare_values : Value → Value → Option Ordering
  | .integer x, .integer y => some (compare x y)
  | .float x, .float y => some (compare x y)
  | .string x, .string y => some (compare x y)
  | _, _ => none

/-- The `Contains` arm shared by `PolicyEvaluator::evaluate_condition` and
`evaluate_expression`: string-substring or list-membership, `false` on any
other operand kinds. -/
def containsMatch (field_value value : Value) : Bool :=
  match field_value, value with
  | .string s, .string needle => strContains s needle
  | .list l, v => l.contains v
  | _, _ => false

/-- `PolicyEvaluator::evaluate_condition`: one exemption condition against a
context (a missing field is `false`).  The source evaluates `NotContains` by
recursively evaluating the same condition with the `Contains` operator; that
recursion is unfolded here (the field lookup is identical). -/
def evaluate_condition (condition : ExemptionCondition) (context : EvaluationContext) : Bool :=
  match context.get_field condition.field with
  | none => false
  | some field_value =>
    match condition.operator with
    | .equals => field_value == condition.value
    | .notEquals => field_value != condition.value
    | .greaterThan => compare_values field_value condition.value == some .gt
    | .lessThan => compare_values field_value condition.value == some .lt
    | .contains => containsMatch field_value condition.value
    | .notContains => !(containsMatch field_value condition.value)

/-- `PolicyEvaluator::exemption_applies`: the exemption must be valid at
evaluation time, its scope must match the context (Global always; User
against `context.requester`; Resource against the context's `"resource"`
string field; every other scope never matches), and every condition must
hold. -/
def exemption_applies (exemption : PolicyExemption) (context : EvaluationContext)
    (now : Timestamp) : Bool :=
  if !(exemption.is_valid now) then false
  else
    let scopeOk : Bool :=
      match exemption.scope with
      | .global => true
      | .user user => context.requester == some user
      | .resource resource =>
        (match context.get_field "resource" with
          | some (.string s) => some s
          | _ => none) == some resource
      | _ => false
    if !scopeOk then false
    else exemption.conditions.all (fun condition => evaluate_condition condition context)

mutual

/-- `PolicyEvaluator::evaluate_expression`: interprets one rule expression
against a context.  Comparison/set/string predicates fail with
`MissingContextField` when the named field is absent; an unregistered custom
predicate fails with `RuleEvaluationFailed`. -/
def evaluate_expression (expr : RuleExpression) (context : EvaluationContext) :
    Except EvaluationError Bool :=
  match expr with
  | .equal field value =>
    match context.get_field field with
    | none => .error (.missingContextField field)
    | some field_value => .ok (field_value == value)
  | .notEqual field value =>
    match context.get_field field with
    | none => .error (.missingContextField field)
    | some field_value => .ok (field_value != value)
  | .greaterThan field value =>
    match context.get_field field with
    | none => .error (.missingContextField field)
    | some field_value => .ok (compare_values field_value value == some .gt)
  | .greaterThanOrEqual field value =>
    match context.get_field field with
    | none => .error (.missingContextField field)
    | some field_value =>
      .ok (compare_values field_value value == some .gt
        || compare_values field_value value == some .eq)
  | .lessThan field value =>
    match context.get_field field with
    | none => .error (.missingContextField field)
    | some field_value => .ok (compare_values field_value value == some .lt)
  | .lessThanOrEqual field value =>
    match context.get_field field with
    | none => .error (.missingContextField field)
    | some field_value =>
      .ok (compare_values field_value value == some .lt
        || compare_values field_value value == some .eq)
  | .and exprs => evalAndList exprs context
  | .or exprs => evalOrList exprs context
  | .not e =>
    match evaluate_expression e context with
    | .error err => .error err
    | .ok b => .ok (!b)
  | .inVals field values =>
    match context.get_field field with
    | none => .error (.missingContextField field)
    | some field_value => .ok (values.contains field_value)
  | .notIn field values =>
    match context.get_field field with
    | none => .error (.missingContextField field)
    | some field_value => .ok (!(values.contains field_value))
  | .contains field value =>
    match context.get_field field with
    | none => .error (.missingContextField field)
    | some field_value => .ok (containsMatch field_value value)
  | .matches field pattern =>
    match context.get_field field with
    | none => .error (.missingContextField field)
    | some field_value =>
      match field_value with
      | .string s => .ok (strContains s pattern)
      | _ => .ok false
  | .startsWith field pre =>
    match context.get_field field with
    | none => .error (.missingContextField field)
    | some field_value =>
      match field_value with
      | .string s => .ok (s.startsWith pre)
      | _ => .ok false
  | .endsWith field suffix =>
    match context.get_field field with
    | none => .error (.missingContextField field)
    | some field_value =>
      match field_value with
      | .string s => .ok (s.endsWith suffix)
      | _ => .ok false
  | .existsField field => .ok (context.get_field field).isSome
  | .notExistsField field => .ok (context.get_field field).isNone
  | .custom predicate _ =>
    .error (.ruleEvaluationFailed
      ("Custom predicate \x27" ++ predicate ++ "\x27 not implemented"))

/-- The `And` loop of `evaluate_expression`: stops at the first child that
evaluates to `false`, propagating the first error met before that. -/
def evalAndList (exprs : List RuleExpression) (context : EvaluationContext) :
    Except EvaluationError Bool :=
  match exprs with
  | [] => .ok true
  | e :: rest =>
    match evaluate_expression e context with
    | .error err => .error err
    | .ok b => if !b then .ok false else evalAndList rest context

/-- The `Or` loop of `evaluate_expression`: stops at the first child that
evaluates to `true`, propagating the first error met before that. -/
def evalOrList (exprs : List RuleExpression) (context : EvaluationContext) :
    Except EvaluationError Bool :=
  match exprs with
  | [] => .ok false
  | e :: rest =>
    match evaluate_expression e context with
    | .error err => .error err
    | .ok b => if b then .ok true else evalOrList rest context

end

/-- `PolicyEvaluator::evaluate_rule`: evaluates the rule's expression and
wraps the outcome in a `RuleResult` with the pass/fail message. -/
def evaluate_rule (rule : PolicyRule) (context : EvaluationContext) :
    Except EvaluationError RuleResult :=
  (evaluate_expression rule.expression context).map (fun passed =>
    { rule_id := rule.id
      rule_name := rule.name
      passed := passed
      message :=
        if passed then "Rule \x27" ++ rule.name ++ "\x27 passed"
        else rule.error_message.getD ("Rule \x27" ++ rule.name ++ "\x27 failed")
      severity := rule.severity
      actual_value := none
      expected_value := none })

/-- `PolicyEvaluator::evaluate`: refuses non-effective policies, then
short-circuits on the first registered exemption that applies, otherwise
folds `add_rule_result` over the rule evaluations, aborting on the first rule
whose evaluation fails (execution-time bookkeeping is not modelled and stays
`0`). -/
def PolicyEvaluator.evaluate (ev : PolicyEvaluator) (policy : Policy)
    (context : EvaluationContext) (now : Timestamp) :
    Except EvaluationError PolicyEvaluation :=
  if !(policy.is_effective now) then .error (.policyNotActive policy.id)
  else
    let evaluation := PolicyEvaluation.new policy.id context now
    match (ev.exemptionsFor policy.id).find?
        (fun exemption => exemption_applies exemption context now) with
    | some exemption =>
      .ok { evaluation with overall_result := .compliantWithExemption exemption.id }
    | none =>
      policy.rules.foldlM
        (fun acc rule => (evaluate_rule rule context).map acc.add_rule_result)
        evaluation

/-- `PolicyEvaluator::evaluate_set`: evaluates every policy and folds the
per-policy compliance into one result under the composition rule, with the
violations of all members concatenated on the non-compliant side. -/
def PolicyEvaluator.evaluate_set (ev : PolicyEvaluator) (policies : List Policy)
    (context : EvaluationContext) (now : Timestamp) (composition : CompositionRule) :
    Except EvaluationError ComplianceResult := do
  let evaluations ← policies.mapM (fun p => ev.evaluate p context now)
  match composition with
  | .all =>
    let violations := evaluations.flatMap (fun e => e.violations)
    if violations.isEmpty then pure .compliant
    else pure (.nonCompliant violations)
  | .any =>
    if evaluations.any (fun e => e.is_compliant) then pure .compliant
    else pure (.nonCompliant (evaluations.flatMap (fun e => e.violations)))
  | .majority =>
    let compliant := (evaluations.filter (fun e => e.is_compliant)).length
    let total := evaluations.length
    if compliant > total / 2 then pure .compliant
    else pure (.nonCompliant (evaluations.flatMap (fun e => e.violations)))
  | .atLeast n =>
    let compliant := (evaluations.filter (fun e => e.is_compliant)).length
    if compliant ≥ n then pure .compliant
    else pure (.nonCompliant (evaluations.flatMap (fun e => e.violations)))

/-- `entities::PolicyConflict`: a detected conflict between two policies. -/
structure PolicyConflict where
  id : Uuid
  policy_ids : List PolicyId
  conflict_type : ConflictType
  description : String
  detected_at : Timestamp
  resolution : Option ConflictResolution

/-- `services::conflict_resolver::ConflictResolutionError`. -/
inductive ConflictResolutionError where
  | noPolicies
  | resolutionFailed (msg : String)
  | irreconcilableConflict (msg : String)
deriving DecidableEq

/-- `services::PolicyConflictResolver`. -/
structure PolicyConflictResolver where
  resolution_strategy : ConflictResolution

mutual

/-- `PolicyConflictResolver::targets_overlap`: Global overlaps anything, the
specific scopes overlap only themselves, and a Composite overlaps whenever
one of its members does. -/
def targets_overlap (target1 target2 : PolicyTarget) : Bool :=
  match target1, target2 with
  | .global, _ => true
  | _, .global => true
  | .organization id1, .organization id2 => id1 == id2
  | .organizationUnit id1, .organizationUnit id2 => id1 == id2
  | .role role1, .role role2 => role1 == role2
  | .resource res1, .resource res2 => res1 == res2
  | .operation op1, .operation op2 => op1 == op2
  | .composite targets1, .composite targets2 => compositeOverlapAny targets1 targets2
  | .composite targets, other => compositeOverlapOne targets other
  | other, .composite targets => compositeOverlapOne targets other
  | _, _ => false
termination_by sizeOf target1 + sizeOf target2
decreasing_by
  all_goals simp_wf
  all_goals omega

/-- The Composite/Composite arm of `targets_overlap`. -/
def compositeOverlapAny (targets1 targets2 : List PolicyTarget) : Bool :=
  match targets1 with
  | [] => false
  | t1 :: rest => compositeOverlapOne targets2 t1 || compositeOverlapAny rest targets2
termination_by sizeOf targets1 + sizeOf targets2
decreasing_by
  all_goals simp_wf
  all_goals omega

/-- The Composite/other arm of `targets_overlap`. -/
def compositeOverlapOne (targets : List PolicyTarget) (other : PolicyTarget) : Bool :=
  match targets with
  | [] => false
  | t :: rest => targets_overlap t other || compositeOverlapOne rest other
termination_by sizeOf targets + sizeOf other
decreasing_by
  all_goals simp_wf
  all_goals omega

end

mutual

/-- `PolicyConflictResolver::extract_fields`: the field names a rule
expression constrains (the source's `HashSet<String>` modelled as a list with
membership semantics; `Custom` contributes its argument keys). -/
def extract_fields : RuleExpression → List String
  | .equal field _ => [field]
  | .notEqual field _ => [field]
  | .greaterThan field _ => [field]
  | .greaterThanOrEqual field _ => [field]
  | .lessThan field _ => [field]
  | .lessThanOrEqual field _ => [field]
  | .inVals field _ => [field]
  | .notIn field _ => [field]
  | .contains field _ => [field]
  | .matches field _ => [field]
  | .startsWith field _ => [field]
  | .endsWith field _ => [field]
  | .existsField field => [field]
  | .notExistsField field => [field]
  | .and exprs => extractFieldsList exprs
  | .or exprs => extractFieldsList exprs
  | .not e => extract_fields e
  | .custom _ args => args.map (fun kv => kv.1)

/-- Field extraction over a list of sub-expressions (the `And`/`Or` arm of
`extract_fields`). -/
def extractFieldsList : List RuleExpression → List String
  | [] => []
  | e :: rest => extract_fields e ++ extractFieldsList rest

end

/-- `PolicyConflictResolver::are_contradictory`: the four direct
contradiction patterns.  Note the `GreaterThan`/`LessThanOrEqual` arm fires
whenever `compare_values` is NOT `Some(Less)` — which includes incomparable
(cross-kind) operands. -/
def are_contradictory (expr1 expr2 : RuleExpression) : Bool :=
  match expr1, expr2 with
  | .equal f1 v1, .equal f2 v2 => f1 == f2 && v1 != v2
  | .equal f1 v1, .notEqual f2 v2 => f1 == f2 && v1 == v2
  | .greaterThan f1 v1, .lessThanOrEqual f2 v2 =>
    f1 == f2 && compare_values v1 v2 != some .lt
  | .existsField f1, .notExistsField f2 => f1 == f2
  | _, _ => false

/-- `PolicyConflictResolver::are_overlapping`: two `In` sets on the same
field neither of which is a subset of the other. -/
def are_overlapping (expr1 expr2 : RuleExpression) : Bool :=
  match expr1, expr2 with
  | .inVals f1 v1, .inVals f2 v2 =>
    if f1 == f2 then
      !(v1.all (fun x => v2.contains x)) && !(v2.all (fun x => v1.contains x))
    else false
  | _, _ => false

/-- `PolicyConflictResolver::create_impossible_condition`:
`GreaterThan x` vs `LessThan y` with `x` not below `y`. -/
def create_impossible_condition (expr1 expr2 : RuleExpression) : Bool :=
  match expr1, expr2 with
  | .greaterThan f1 v1, .lessThan f2 v2 =>
    f1 == f2 && compare_values v1 v2 != some .lt
  | _, _ => false

/-- `PolicyConflictResolver::check_rule_conflict`: requires a shared field
between the two rules, then tries Contradiction, Overlap and Impossible in
that order. -/
def check_rule_conflict (rule1 rule2 : PolicyRule) : Option ConflictType :=
  let fields1 := extract_fields rule1.expression
  let fields2 := extract_fields rule2.expression
  if !(fields1.any (fun f => fields2.contains f)) then none
  else if are_contradictory rule1.expression rule2.expression then some .contradiction
  else if are_overlapping rule1.expression rule2.expression then some .overlap
  else if create_impossible_condition rule1.expression rule2.expression then some .impossible
  else none

/-- `PolicyConflictResolver::check_policy_pair`: requires overlapping target
scopes, then returns a conflict for the FIRST conflicting rule×rule pair
(rule of `policy1` outer, rule of `policy2` inner), if any.  The fresh
conflict UUID and `Utc::now()` stamp are opaque to every property here and
fixed to `0`. -/
def check_policy_pair (res : PolicyConflictResolver) (policy1 policy2 : Policy) :
    Option PolicyConflict :=
  if !(targets_overlap policy1.target policy2.target) then none
  else
    (policy1.rules.flatMap (fun rule1 => policy2.rules.map (fun rule2 => (rule1, rule2)))).findSome?
      (fun pair =>
        (check_rule_conflict pair.1 pair.2).map (fun conflict_type =>
          { id := 0
            policy_ids := [policy1.id, policy2.id]
            conflict_type := conflict_type
            description :=
              "Conflict between rule \x27" ++ pair.1.name ++ "\x27 in policy \x27"
                ++ policy1.name ++ "\x27 and rule \x27" ++ pair.2.name
                ++ "\x27 in policy \x27" ++ policy2.name ++ "\x27"
            detected_at := 0
            resolution := some res.resolution_strategy }))

/-- The ordered pairs `(policies[i], policies[j])` with `i < j`, in the
iteration order of `detect_conflicts`' double index loop. -/
def pairsAfter : List Policy → List (Policy × Policy)
  | [] => []
  | p :: rest => rest.map (fun q => (p, q)) ++ pairsAfter rest

/-- `PolicyConflictResolver::detect_conflicts`: checks each unordered pair of
input policies and collects at most one conflict per pair. -/
def PolicyConflictResolver.detect_conflicts (res : PolicyConflictResolver)
    (policies : List Policy) : List PolicyConflict :=
  (pairsAfter policies).filterMap (fun pair => check_policy_pair res pair.1 pair.2)

/-- `infrastructure::policy_repository::RepositoryError` (the NATS transport
variant is out of scope; replay only produces `Policy` and `InvalidSequence`
errors). -/
inductive RepositoryError where
  | policy (e : PolicyError)
  | invalidSequence (msg : String)
deriving DecidableEq

/-- `PolicyRepository::create_from_created_event`: builds a fresh draft
policy and applies the creation event to it. -/
def create_from_created_event (fresh : PolicyId) (now : Timestamp) (event : PolicyCreated) :
    Except RepositoryError Policy :=
  let policy := Policy.new fresh now event.name event.description
  (policy.apply_event_pure (.policyCreated event)).mapError RepositoryError.policy

/-- The loop body of `PolicyRepository::load`: with no policy built yet, the
event must be `PolicyCreated` (anything else is an `InvalidSequence` error);
afterwards events are applied through `apply_event_pure`. -/
def load_step (fresh : PolicyId) (now : Timestamp)
    (policy : Option Policy) (event : PolicyEvent) : Except RepositoryError (Option Policy) :=
  match policy with
  | none =>
    match event with
    | .policyCreated created => (create_from_created_event fresh now created).map some
    | _ => .error (.invalidSequence
        ("First event must be PolicyCreated, got: " ++ event.event_type))
  | some pol => ((pol.apply_event_pure event).mapError RepositoryError.policy).map some

/-- `PolicyRepository::load`, modelled over the event history the external
store returns (the store itself is a collaborator): empty history is
`Ok(None)`; a non-`PolicyCreated` first event is an `InvalidSequence` error;
otherwise the aggregate is rebuilt by folding `apply_event_pure` over the
full ordered history starting from the creation event.  The fresh UUID and
timestamp consumed by `Policy::new` are explicit parameters. -/
def load (fresh : PolicyId) (now : Timestamp) (events : List PolicyEvent) :
    Except RepositoryError (Option Policy) :=
  if events.isEmpty then .ok none
  else do
    let policy ← events.foldlM (load_step fresh now) none
    pure policy

/-- `sagas::SagaState`: the nodes of the saga state machines. -/
inductive SagaState where
  | initiated
  | inProgress
  | waiting
  | completed
  | failed
  | cancelled
  | draft
  | underReview
  | approved
  | rejected
  | active
  | suspended
  | archived
  | evaluating
  | enforcing
  | blocked
  | allowed
  | remediation
  | exemptionRequested
  | exemptionUnderReview
  | exemptionGranted
  | exemptionDenied
  | exemptionExpired
  | auditScheduled
  | auditInProgress
  | auditComplete
  | nonCompliant
  | complianceVerified
deriving DecidableEq

/-- `sagas::StateTransition`: the edges of the saga state machines. -/
inductive StateTransition where
  | start
  | progress
  | complete
  | fail
  | cancel
  | retry
  | submitForReview
  | approve
  | reject
  | requestChanges
  | activate
  | suspend
  | archive
  | evaluate
  | enforce
  | allow
  | block
  | remediate
  | requestExemption
  | reviewExemption
  | grantExemption
  | denyExemption
  | expireExemption
  | scheduleAudit
  | startAudit
  | completeAudit
  | verifyCompliance
  | reportViolation
deriving DecidableEq

/-- `sagas::SagaMetadata`. -/
structure SagaMetadata where
  id : Uuid
  correlation_id : Uuid
  causation_id : Option Uuid
  initiated_at : Timestamp
  initiated_by : String
  last_updated : Timestamp
  version : Nat
  tags : List (String × String)

/-- `sagas::MarkovChain`: advisory transition probabilities and state rewards
(`f64` modelled as `Rat`; `HashMap`s as association lists). -/
structure MarkovChain where
  transitions : List ((SagaState × SagaState) × Rat)
  state_rewards : List (SagaState × Rat)

/-- `exemption_saga::RiskLevel`. -/
inductive RiskLevel where
  | low
  | medium
  | high
  | critical
deriving DecidableEq

/-- `exemption_saga::BusinessPriority`. -/
inductive BusinessPriority where
  | low
  | medium
  | high
  | critical
deriving DecidableEq

/-- `exemption_saga::ApprovalLevel`. -/
inductive ApprovalLevel where
  | manager
  | director
  | security
  | compliance
deriving DecidableEq

/-- Debug name of a `RiskLevel` (the `{:?}` rendering used in
`get_commands`' risk-acceptance note). -/
def RiskLevel.debugName : RiskLevel → String
  | .low => "Low"
  | .medium => "Medium"
  | .high => "High"
  | .critical => "Critical"

/-- `commands::RequestExemption`: command payload. -/
structure RequestExemption where
  identity : MessageIdentity
  policy_id : PolicyId
  requester : String
  reason : String
  justification : String
  duration : Int
  scope : ExemptionScope

/-- `commands::GrantExemption`: command payload. -/
structure GrantExemption where
  identity : MessageIdentity
  policy_id : PolicyId
  requester : String
  approver : String
  reason : String
  justification : String
  risk_acceptance : Option String
  valid_from : Timestamp
  valid_until : Timestamp
  conditions : List ExemptionCondition

/-- `commands::PolicyCommand`.  The exemption saga only ever constructs the
`RequestExemption` and `GrantExemption` variants; the payloads of the other
variants are never built by the embedded code and are left abstract
(`Unit`). -/
inductive PolicyCommand where
  | createPolicy (payload : Unit)
  | updatePolicy (payload : Unit)
  | approvePolicy (payload : Unit)
  | activatePolicy (payload : Unit)
  | suspendPolicy (payload : Unit)
  | revokePolicy (payload : Unit)
  | archivePolicy (payload : Unit)
  | evaluatePolicy (payload : Unit)
  | enforcePolicy (payload : Unit)
  | requestExemption (payload : RequestExemption)
  | grantExemption (payload : GrantExemption)
  | revokeExemption (payload : Unit)
  | createPolicySet (payload : Unit)
  | addPolicyToSet (payload : Unit)
  | removePolicyFromSet (payload : Unit)
  | activatePolicySet (payload : Unit)

/-- `Duration::days` in seconds (the timestamp timeline is in seconds). -/
def durationDays (n : Int) : Int := n * 86400

/-- `sagas::ExemptionWorkflowSaga`: the exemption approval workflow. -/
structure ExemptionWorkflowSaga where
  metadata : SagaMetadata
  policy_id : PolicyId
  requester : String
  current_state : SagaState
  markov_chain : MarkovChain
  risk_assessment : Option (RiskLevel × String)
  business_justification : Option (String × BusinessPriority)
  approvals : List (String × ApprovalLevel)
  exemption_conditions : List ExemptionCondition
  exemption_id : Option ExemptionId
  expiry : Option Timestamp

/-- `ExemptionWorkflowSaga::ready_for_approval`: both a risk assessment and a
business justification have been recorded. -/
def ExemptionWorkflowSaga.ready_for_approval (s : ExemptionWorkflowSaga) : Bool :=
  s.risk_assessment.isSome && s.business_justification.isSome

/-- `ExemptionWorkflowSaga::has_sufficient_approvals`: risk-tiered approval
count — 4 for Critical, 3 for High, 2 for Medium, 1 otherwise (Low or no
assessment). -/
def ExemptionWorkflowSaga.has_sufficient_approvals (s : ExemptionWorkflowSaga) : Bool :=
  let required_approvals : Nat :=
    match s.risk_assessment with
    | some (.critical, _) => 4
    | some (.high, _) => 3
    | some (.medium, _) => 2
    | _ => 1
  decide (s.approvals.length ≥ required_approvals)

/-- `ExemptionWorkflowSaga::available_transitions` (the per-state static
table). -/
def ExemptionWorkflowSaga.available_transitions (s : ExemptionWorkflowSaga) :
    List StateTransition :=
  match s.current_state with
  | .exemptionRequested => [.reviewExemption, .denyExemption]
  | .exemptionUnderReview => [.grantExemption, .denyExemption, .requestChanges]
  | .exemptionGranted => [.expireExemption]
  | _ => []

/-- `ExemptionWorkflowSaga::get_commands`: derives follow-up commands purely
from the current state and accumulated workflow data.  A `RequestExemption`
command is emitted from `ExemptionRequested` once ready for approval; a
`GrantExemption` command is emitted from `ExemptionUnderReview` once the
approvals are sufficient; no command otherwise.  (`Utc::now()` and the fresh
command-identity UUID are modelled as the explicit `now` and `0`.) -/
def ExemptionWorkflowSaga.get_commands (s : ExemptionWorkflowSaga) (now : Timestamp) :
    List PolicyCommand :=
  match s.current_state with
  | .exemptionRequested =>
    if s.ready_for_approval then
      [PolicyCommand.requestExemption
        { identity := create_root_command 0
          policy_id := s.policy_id
          requester := s.requester
          reason := (s.risk_assessment.map (fun ra => ra.2)).getD ""
          justification := (s.business_justification.map (fun bj => bj.1)).getD ""
          duration := durationDays 30
          scope := .user s.requester }]
    else []
  | .exemptionUnderReview =>
    if s.has_sufficient_approvals then
      [PolicyCommand.grantExemption
        { identity := create_root_command 0
          policy_id := s.policy_id
          requester := s.requester
          approver := (s.approvals.getLast?.map (fun a => a.1)).getD ""
          reason := (s.risk_assessment.map (fun ra => ra.2)).getD ""
          justification := (s.business_justification.map (fun bj => bj.1)).getD ""
          risk_acceptance := s.risk_assessment.map
            (fun ra => "Risk level: " ++ ra.1.debugName)
          valid_from := now
          valid_until := s.expiry.getD (now + durationDays 30)
          conditions := s.exemption_conditions }]
    else []
  | _ => []

/-- `ExemptionWorkflowSaga::is_complete`. -/
def ExemptionWorkflowSaga.is_complete (s : ExemptionWorkflowSaga) : Bool :=
  match s.current_state with
  | .exemptionGranted => true
  | .exemptionDenied => true
  | .exemptionExpired => true
  | _ => false

/-- `ExemptionWorkflowSaga::has_failed`. -/
def ExemptionWorkflowSaga.has_failed (s : ExemptionWorkflowSaga) : Bool :=
  s.current_state == .exemptionDenied

/-! ### Statement-side helper definitions -/

/-- The `RuleResult` a successful `evaluate_rule` produces (junk fallback in
the error case; only used under a no-error hypothesis). -/
def rule_outcome (rule : PolicyRule) (context : EvaluationContext) : RuleResult :=
  (evaluate_rule rule context).toOption.getD
    { rule_id := rule.id
      rule_name := rule.name
      passed := false
      message := ""
      severity := rule.severity
      actual_value := none
      expected_value := none }

/-- The list of per-policy evaluations `evaluate_set` computes, under the
hypothesis that each per-policy evaluation succeeds. -/
def evalsOf (ev : PolicyEvaluator) (policies : List Policy)
    (context : EvaluationContext) (now : Timestamp) : List PolicyEvaluation :=
  policies.filterMap (fun p => (ev.evaluate p context now).toOption)

/-- Whether a command is a `GrantExemption` command. -/
def isGrantExemptionCommand : PolicyCommand → Bool
  | .grantExemption _ => true
  | _ => false

/-- Whether an event belongs to the PolicyExemption aggregate
(Granted/Revoked/Expired). -/
def isExemptionEvent : PolicyEvent → Bool
  | .policyExemptionGranted _ => true
  | .policyExemptionRevoked _ => true
  | .policyExemptionExpired _ => true
  | _ => false

/-- Whether an event is a `PolicyCreated` event. -/
def isPolicyCreatedEvent : PolicyEvent → Bool
  | .policyCreated _ => true
  | _ => false

/-- The status-transition table `Policy::update_status` actually accepts
(the spec's table plus the send-back-for-revision transition
UnderReview→Draft). -/
def allowedStatusTransitions : List (PolicyStatus × PolicyStatus) :=
  [(.draft, .underReview),
   (.underReview, .approved),
   (.underReview, .draft),
   (.approved, .active),
   (.active, .suspended),
   (.suspended, .active),
   (.active, .revoked),
   (.suspended, .revoked),
   (.revoked, .archived)]

/-! ### Concrete fixtures used by counterexamples and witnesses -/

/-- Fixture metadata. -/
def fxMeta : PolicyMetadata := PolicyMetadata.default 0

/-- Fixture context: `region = "EU"`, requester `alice`. -/
def fxCtx : EvaluationContext :=
  { fields := [("region", Value.string "EU")]
    requester := some "alice"
    timestamp := 0
    environment := [] }

/-- Fixture rule requiring `region = "US"` (fails on `fxCtx`). -/
def fxRuleUS : PolicyRule :=
  { id := 1
    name := "Region US"
    description := "region must be US"
    rule_type := .constraint
    expression := .equal "region" (.string "US")
    parameters := []
    severity := .high
    error_message := some "region mismatch"
    remediation_hint := none }

/-- Fixture rule requiring `region = "APAC"` (also fails on `fxCtx`). -/
def fxRuleAPAC : PolicyRule :=
  { id := 2
    name := "Region APAC"
    description := "region must be APAC"
    rule_type := .constraint
    expression := .equal "region" (.string "APAC")
    parameters := []
    severity := .medium
    error_message := some "not in APAC"
    remediation_hint := none }

/-- Fixture rule requiring the `region` field to exist (passes on `fxCtx`). -/
def fxRuleExists : PolicyRule :=
  { id := 3
    name := "Region present"
    description := "region must be present"
    rule_type := .constraint
    expression := .existsField "region"
    parameters := []
    severity := .low
    error_message := none
    remediation_hint := none }

/-- Active fixture policy with the single failing rule `fxRuleUS`. -/
def fxPolicyOneFail : Policy :=
  { id := ⟨11⟩
    name := "One failing rule"
    description := ""
    version := 1
    status := .active
    rules := [fxRuleUS]
    target := .global
    enforcement_level := .hard
    effective_date := none
    expiry_date := none
    parent_policy_id := none
    metadata := fxMeta }

/-- Active fixture policy with two failing rules. -/
def fxPolicyTwoFail : Policy :=
  { fxPolicyOneFail with id := ⟨12⟩, rules := [fxRuleUS, fxRuleAPAC] }

/-- Active fixture policy whose single rule passes on `fxCtx`. -/
def fxPolicyPass : Policy :=
  { fxPolicyOneFail with id := ⟨13⟩, rules := [fxRuleExists] }

/-- A second active all-pass fixture policy. -/
def fxPolicyPass2 : Policy :=
  { fxPolicyOneFail with id := ⟨14⟩, rules := [fxRuleExists] }

/-- Evaluator with no registered exemptions. -/
def fxEvNoEx : PolicyEvaluator := { exemptions := [] }

/-- First fixture exemption (global scope, valid on [-100, 100]) for policy
`⟨10⟩`. -/
def fxExemption1 : PolicyExemption :=
  { id := ⟨1⟩
    policy_id := ⟨10⟩
    reason := "maintenance window"
    justification := "approved change"
    risk_acceptance := none
    approved_by := "admin"
    approved_at := -100
    valid_from := -100
    valid_until := 100
    scope := .global
    conditions := []
    status := .active }

/-- Second fixture exemption (also global and valid) for policy `⟨10⟩`. -/
def fxExemption2 : PolicyExemption :=
  { fxExemption1 with id := ⟨2⟩ }

/-- Evaluator holding both fixture exemptions for policy `⟨10⟩`. -/
def fxEvTwoEx : PolicyEvaluator :=
  { exemptions := [(⟨10⟩, [fxExemption1, fxExemption2])] }

/-- Active fixture policy with id `⟨10⟩` (covered by the fixture
exemptions). -/
def fxPolicyEx : Policy :=
  { fxPolicyOneFail with id := ⟨10⟩ }

/-- Draft (hence non-effective) fixture policy with id `⟨10⟩`. -/
def fxPolicyDraftEx : Policy :=
  { fxPolicyOneFail with id := ⟨10⟩, status := .draft }

/-- Fixture policy whose status is UnderReview. -/
def fxPolicyUR : Policy :=
  { fxPolicyOneFail with id := ⟨15⟩, status := .underReview }

/-- Fixture exemption in the terminal Revoked state. -/
def fxExRevoked : PolicyExemption :=
  { fxExemption1 with id := ⟨3⟩, status := .revoked "sec" 5 "policy violation" }

/-- Fixture `PolicyExemptionGranted` event payload. -/
def fxGrantedPayload : PolicyExemptionGranted :=
  { event_id := 100
    identity := create_root_command 100
    exemption_id := ⟨4⟩
    policy_id := ⟨10⟩
    granted_by := "admin"
    granted_at := 10
    reason := "second grant"
    valid_until := 500
    risk_acceptance := none }

/-- Fixture `PolicyCreated` event payload. -/
def fxCreatedPayload : PolicyCreated :=
  { event_id := 101
    identity := create_root_command 101
    policy_id := ⟨30⟩
    name := "Replayed"
    description := "from history"
    policy_type := "Security"
    created_by := "admin"
    created_at := 7 }

/-- Fixture `PolicyApproved` event payload. -/
def fxApprovedPayload : PolicyApproved :=
  { event_id := 102
    identity := create_root_command 102
    policy_id := ⟨30⟩
    approved_by := "manager"
    approved_at := 8
    approval_notes := none }

/-- Fixture conflict resolver (MostRestrictive strategy). -/
def fxResolver : PolicyConflictResolver := { resolution_strategy := .mostRestrictive }

/-- Fixture policy A: `Equal region "US"`, global target. -/
def fxPolicyA : Policy :=
  { fxPolicyOneFail with id := ⟨21⟩, name := "A", rules := [fxRuleUS] }

/-- Fixture rule requiring `region = "EU"`. -/
def fxRuleEU : PolicyRule :=
  { id := 4
    name := "Region EU"
    description := "region must be EU"
    rule_type := .constraint
    expression := .equal "region" (.string "EU")
    parameters := []
    severity := .high
    error_message := none
    remediation_hint := none }

/-- Fixture policy B: `Equal region "EU"`, same (global) target as A. -/
def fxPolicyB : Policy :=
  { fxPolicyOneFail with id := ⟨22⟩, name := "B", rules := [fxRuleEU] }

/-- The violation produced by `fxRuleUS` failing on `fxCtx` (its message is
the rule's `error_message`). -/
def fxViolationUS : Violation :=
  { rule_id := 1
    rule_description := "Region US"
    severity := .high
    details := "region mismatch"
    suggested_remediation := none }

/-- The conflict `detect_conflicts` reports for `[fxPolicyA, fxPolicyB]`. -/
def fxConflictAB : PolicyConflict :=
  { id := 0
    policy_ids := [⟨21⟩, ⟨22⟩]
    conflict_type := .contradiction
    description := "Conflict between rule \x27Region US\x27 in policy \x27A\x27 and rule \x27Region EU\x27 in policy \x27B\x27"
    detected_at := 0
    resolution := some .mostRestrictive }

/-- Fixture saga metadata. -/
def fxSagaMeta : SagaMetadata :=
  { id := 50
    correlation_id := 50
    causation_id := none
    initiated_at := 0
    initiated_by := "alice"
    last_updated := 0
    version := 1
    tags := [] }

/-- Fixture exemption saga sitting in `ExemptionUnderReview` with a Medium
risk assessment and two approvals. -/
def fxSagaUR : ExemptionWorkflowSaga :=
  { metadata := fxSagaMeta
    policy_id := ⟨10⟩
    requester := "alice"
    current_state := .exemptionUnderReview
    markov_chain := { transitions := [], state_rewards := [] }
    risk_assessment := some (.medium, "manageable risk")
    business_justification := some ("deadline", .high)
    approvals := [("bob", .manager), ("carol", .director)]
    exemption_conditions := []
    exemption_id := none
    expiry := some 1000 }

/-! ### Shared lemmas -/

/-- `add_rule_result` appends the incoming result to the recorded list. -/
theorem add_rule_result_rule_results (e : PolicyEvaluation) (r : RuleResult) :
    (e.add_rule_result r).rule_results = e.rule_results ++ [r] := by
  unfold PolicyEvaluation.add_rule_result
  by_cases h : r.passed <;> simp [h]

/-- A passing result leaves the overall result unchanged. -/
theorem add_rule_result_overall_pass (e : PolicyEvaluation) (r : RuleResult)
    (h : r.passed = true) :
    (e.add_rule_result r).overall_result = e.overall_result := by
  unfold PolicyEvaluation.add_rule_result
  simp [h]

/-- A failing result sets the overall result to the violations of the
failures recorded so far (not including the incoming one). -/
theorem add_rule_result_overall_fail (e : PolicyEvaluation) (r : RuleResult)
    (h : r.passed = false) :
    (e.add_rule_result r).overall_result =
      ComplianceResult.nonCompliant
        ((e.rule_results.filter (fun x => !x.passed)).map RuleResult.to_violation) := by
  unfold PolicyEvaluation.add_rule_result
  simp [h]

/-- Folding `add_rule_result` over a list of rule results: the results are
appended in order, and the overall result is `NonCompliant` carrying the
violations of all failures recorded strictly before the LAST failure (the
last failure's own violation is not carried), or the accumulator's overall
result when no new failure arrives. -/
theorem foldl_add_rule_result (results : List RuleResult) (acc : PolicyEvaluation) :
    ((results.foldl PolicyEvaluation.add_rule_result acc).rule_results
        = acc.rule_results ++ results)
    ∧ ((results.foldl PolicyEvaluation.add_rule_result acc).overall_result
        = if results.any (fun r => !r.passed) then
            ComplianceResult.nonCompliant
              ((((acc.rule_results ++ results).filter (fun r => !r.passed)).dropLast).map
                RuleResult.to_violation)
          else acc.overall_result) := by
  induction results generalizing acc with
  | nil => simp
  | cons r rs ih =>
    have hstep : (r :: rs).foldl PolicyEvaluation.add_rule_result acc
        = rs.foldl PolicyEvaluation.add_rule_result (acc.add_rule_result r) := rfl
    have hrr : (acc.add_rule_result r).rule_results = acc.rule_results ++ [r] :=
      add_rule_result_rule_results acc r
    have happ : (acc.add_rule_result r).rule_results ++ rs = acc.rule_results ++ (r :: rs) := by
      rw [hrr]; simp
    constructor
    · rw [hstep, (ih (acc.add_rule_result r)).1, happ]
    · rw [hstep, (ih (acc.add_rule_result r)).2, happ]
      by_cases hr : r.passed
      · have hov : (acc.add_rule_result r).overall_result = acc.overall_result :=
          add_rule_result_overall_pass acc r hr
        simp [hr, hov]
      · have hr' : r.passed = false := by simpa using hr
        have hov := add_rule_result_overall_fail acc r hr'
        by_cases h2 : rs.any (fun x => !x.passed)
        · simp [hr', h2]
        · have h2' : (rs.any fun x => !x.passed) = false := by simpa using h2
          have hfilter : rs.filter (fun x => !x.passed) = [] := by
            rw [List.filter_eq_nil_iff]
            intro a ha
            have := List.any_eq_false.mp h2' a ha
            simpa using this
          have hlist : ((acc.rule_results ++ r :: rs).filter (fun x => !x.passed)).dropLast
              = acc.rule_results.filter (fun x => !x.passed) := by
            rw [List.filter_append, List.filter_cons_of_pos (by simp [hr']), hfilter]
            exact List.dropLast_concat
          have hcond : ((r :: rs).any fun x => !x.passed) = true := by simp [hr']
          rw [h2', hcond, hov]
          simp only [Bool.false_eq_true, if_false, if_true]
          exact congrArg
            (fun l => ComplianceResult.nonCompliant (l.map RuleResult.to_violation))
            hlist.symm

/-- Binding a mapped error in `Except` yields that error. -/
theorem except_map_bind_error {ε α β γ : Type} (g : α → β) (err : ε) (k : β → Except ε γ) :
    ((Except.error err : Except ε α).map g >>= k) = .error err := rfl

/-- Binding a mapped success in `Except` continues with the mapped value. -/
theorem except_map_bind_ok {ε α β γ : Type} (g : α → β) (v : α) (k : β → Except ε γ) :
    ((Except.ok v : Except ε α).map g >>= k) = k (g v) := rfl

/-- A successful `evaluate_rule` is exactly `rule_outcome`. -/
theorem evaluate_rule_ok_eq_outcome (rule : PolicyRule) (context : EvaluationContext)
    (r : RuleResult) (h : evaluate_rule rule context = .ok r) :
    rule_outcome rule context = r := by
  unfold rule_outcome
  rw [h]
  rfl

/-- The rule-evaluation fold of `PolicyEvaluator::evaluate` returns `Ok e`
exactly when every rule evaluates without error, and then `e` is the plain
`add_rule_result` fold of the per-rule outcomes. -/
theorem foldlM_rules_ok_iff (context : EvaluationContext) (rules : List PolicyRule)
    (acc : PolicyEvaluation) (e : PolicyEvaluation) :
    (rules.foldlM
        (fun acc rule => (evaluate_rule rule context).map acc.add_rule_result) acc = .ok e)
    ↔ ((∀ r ∈ rules, (evaluate_rule r context).isOk = true)
        ∧ e = (rules.map (fun r => rule_outcome r context)).foldl
            PolicyEvaluation.add_rule_result acc) := by
  induction rules generalizing acc with
  | nil =>
    simp only [List.foldlM_nil, List.map_nil, List.foldl_nil]
    constructor
    · intro h
      refine ⟨by simp, ?_⟩
      exact (Except.ok.injEq _ _ ▸ congrArg id h.symm : e = acc)
    · rintro ⟨-, rfl⟩; rfl
  | cons r rs ih =>
    rw [List.foldlM_cons]
    cases hr : evaluate_rule r context with
    | error err =>
      rw [except_map_bind_error]
      constructor
      · intro h
        exact Except.noConfusion h
      · rintro ⟨hall, -⟩
        have hok := hall r (by simp)
        rw [hr] at hok
        simp [Except.isOk, Except.toBool] at hok
    | ok v =>
      have houtcome : rule_outcome r context = v := evaluate_rule_ok_eq_outcome r context v hr
      rw [except_map_bind_ok, ih (acc.add_rule_result v)]
      constructor
      · rintro ⟨hall, he⟩
        refine ⟨?_, ?_⟩
        · intro x hx
          rcases List.mem_cons.mp hx with hx | hx
          · subst hx; rw [hr]; rfl
          · exact hall x hx
        · simpa [houtcome] using he
      · rintro ⟨hall, he⟩
        refine ⟨fun x hx => hall x (List.mem_cons_of_mem _ hx), ?_⟩
        simpa [houtcome] using he

/-- If some rule's evaluation fails, the rule-evaluation fold fails. -/
theorem foldlM_rules_error (context : EvaluationContext) (rules : List PolicyRule)
    (acc : PolicyEvaluation)
    (h : ∃ r ∈ rules, (evaluate_rule r context).isOk = false) :
    ∃ err, rules.foldlM
        (fun acc rule => (evaluate_rule rule context).map acc.add_rule_result) acc
      = .error err := by
  induction rules generalizing acc with
  | nil => simp at h
  | cons r rs ih =>
    rw [List.foldlM_cons]
    cases hr : evaluate_rule r context with
    | error err =>
      refine ⟨err, ?_⟩
      rw [except_map_bind_error]
    | ok v =>
      rw [except_map_bind_ok]
      apply ih
      rcases h with ⟨x, hx, hbad⟩
      rcases List.mem_cons.mp hx with hx | hx
      · subst hx; rw [hr] at hbad; simp [Except.isOk, Except.toBool] at hbad
      · exact ⟨x, hx, hbad⟩

/-- The guard of `update_status` accepts exactly the pairs of
`allowedStatusTransitions`. -/
theorem statusTransitionAllowed_iff (a b : PolicyStatus) :
    statusTransitionAllowed a b = true ↔ (a, b) ∈ allowedStatusTransitions := by
  cases a <;> cases b <;> decide

/-! ### C4 -/

/-- C4 (amended): `Policy::update_status` accepts exactly the transitions
Draft→UnderReview, UnderReview→Approved, UnderReview→Draft,
Approved→Active, Active→Suspended, Suspended→Active, Active→Revoked,
Suspended→Revoked and Revoked→Archived; an accepted transition updates the
status, and every other requested pair is rejected with a validation
(invalid-transition) error leaving the policy unchanged. -/
theorem update_status_transition_table :
    ∀ (p : Policy) (s : PolicyStatus),
      (((p.update_status s).1.isOk = true) ↔ (p.status, s) ∈ allowedStatusTransitions)
      ∧ ((p.update_status s).1.isOk = true → (p.update_status s).2 = { p with status := s })
      ∧ ((p.update_status s).1.isOk = false →
          (∃ msg, (p.update_status s).1 = .error (.validationError msg))
          ∧ (p.update_status s).2 = p) := by
  intro p s
  by_cases h : statusTransitionAllowed p.status s = true
  · have hgood : p.update_status s = (.ok (), { p with status := s }) := by
      unfold Policy.update_status
      rw [if_pos h]
    rw [hgood]
    refine ⟨?_, fun _ => rfl, fun hbad => by simp [Except.isOk, Except.toBool] at hbad⟩
    simp only [Except.isOk, Except.toBool, true_iff]
    exact (statusTransitionAllowed_iff p.status s).mp h
  · have h' : statusTransitionAllowed p.status s = false := by simpa using h
    have hbad : p.update_status s = (.error (.validationError
        ("Invalid status transition from " ++ p.status.debugName ++ " to " ++ s.debugName)),
        p) := by
      unfold Policy.update_status
      rw [if_neg (by simp [h'])]
    rw [hbad]
    refine ⟨⟨fun habs => Bool.noConfusion habs, fun hmem => ?_⟩,
      fun habs => Bool.noConfusion habs, fun _ => ⟨⟨_, rfl⟩, rfl⟩⟩
    have hc := (statusTransitionAllowed_iff p.status s).mpr hmem
    rw [h'] at hc
    exact hc

/-- C4 counterexample: the claim omits the transition UnderReview→Draft
(send back for revision), but `update_status` accepts it: on a policy under
review, requesting Draft succeeds, although (UnderReview, Draft) is not in
the claim's table. -/
theorem update_status_under_review_to_draft_accepted :
    ((fxPolicyUR.update_status .draft).1.isOk = true)
    ∧ (fxPolicyUR.update_status .draft).2.status = PolicyStatus.draft
    ∧ ((PolicyStatus.underReview, PolicyStatus.draft) ∉
        [((PolicyStatus.draft : PolicyStatus), (PolicyStatus.underReview : PolicyStatus)),
         (.underReview, .approved),
         (.approved, .active),
         (.active, .suspended),
         (.suspended, .active),
         (.active, .revoked),
         (.suspended, .revoked),
         (.revoked, .archived)]) := by
  refine ⟨rfl, rfl, ?_⟩
  decide

/-- C4 witness: the amended theorem applied at a concrete policy and
transition. -/
theorem update_status_transition_table_witness :
    (((fxPolicyUR.update_status .approved).1.isOk = true)
      ↔ (fxPolicyUR.status, PolicyStatus.approved) ∈ allowedStatusTransitions)
    ∧ ((fxPolicyUR.update_status .archived).1.isOk = false →
        (∃ msg, (fxPolicyUR.update_status .archived).1 = .error (.validationError msg))
        ∧ (fxPolicyUR.update_status .archived).2 = fxPolicyUR) :=
  ⟨(update_status_transition_table fxPolicyUR .approved).1,
   (update_status_transition_table fxPolicyUR .archived).2.2⟩

/-! ### C5 -/

/-- C5 (amended): the exemption reducer does not make Revoked/Expired sticky.
For an exemption in a terminal state (Revoked or Expired), every
non-exemption event leaves the state unchanged, but a later
`PolicyExemptionGranted` event is still applied and re-initializes the
exemption to Active. -/
theorem exemption_reducer_terminal_behavior :
    (∀ (ex : PolicyExemption) (event : PolicyEvent),
      (ex.status = .expired ∨ ∃ rb rt rr, ex.status = .revoked rb rt rr) →
      isExemptionEvent event = false →
      ex.apply_event_pure event = .ok ex)
    ∧ (∀ (ex : PolicyExemption) (e : PolicyExemptionGranted),
      (ex.status = .expired ∨ ∃ rb rt rr, ex.status = .revoked rb rt rr) →
      ∃ ex', ex.apply_event_pure (.policyExemptionGranted e) = .ok ex'
        ∧ ex'.status = .active ∧ ex'.id = e.exemption_id) := by
  constructor
  · intro ex event _ hnotex
    cases event <;> first
      | rfl
      | simp [isExemptionEvent] at hnotex
  · intro ex e _
    exact ⟨ex.applyEvent (.policyExemptionGranted e), rfl, rfl, rfl⟩

/-- C5 counterexample: a Revoked exemption is NOT left unchanged by a
subsequent `PolicyExemptionGranted` event — the reducer re-activates it, so
terminal states do not ignore further events. -/
theorem revoked_exemption_reactivated_by_grant :
    ((fxExRevoked.apply_event_pure (.policyExemptionGranted fxGrantedPayload)).map
        (fun ex => ex.status)) = .ok ExemptionStatus.active
    ∧ fxExRevoked.status = ExemptionStatus.revoked "sec" 5 "policy violation"
    ∧ ExemptionStatus.active ≠ ExemptionStatus.revoked "sec" 5 "policy violation" := by
  refine ⟨rfl, rfl, ?_⟩
  decide

/-- C5 witness: the amended theorem applied to the concrete revoked fixture
exemption with a non-exemption event and with a Granted event. -/
theorem exemption_reducer_terminal_behavior_witness :
    (fxExRevoked.apply_event_pure (.policyCreated fxCreatedPayload) = .ok fxExRevoked)
    ∧ (∃ ex', fxExRevoked.apply_event_pure (.policyExemptionGranted fxGrantedPayload) = .ok ex'
        ∧ ex'.status = .active ∧ ex'.id = fxGrantedPayload.exemption_id) :=
  ⟨exemption_reducer_terminal_behavior.1 fxExRevoked (.policyCreated fxCreatedPayload)
      (Or.inr ⟨"sec", 5, "policy violation", rfl⟩) rfl,
   exemption_reducer_terminal_behavior.2 fxExRevoked fxGrantedPayload
      (Or.inr ⟨"sec", 5, "policy violation", rfl⟩)⟩

/-! ### C6 -/

/-- C6 (amended): for rules `GreaterThan{f, x}` and `LessThanOrEqual{f, y}`
on the same field, the conflict detector classifies the pair as a
Contradiction iff the comparison of `x` and `y` is not strictly-less: when
`x` and `y` are comparable (integer/integer, float/float, lexical
string/string) this is exactly `x >= y`, but incomparable (cross-kind) pairs
are ALSO classified as contradictions. -/
theorem are_contradictory_gt_le_characterization :
    (∀ (f : String) (x y : Value) (o : Ordering),
      compare_values x y = some o →
      (are_contradictory (.greaterThan f x) (.lessThanOrEqual f y) = true
        ↔ (o = .gt ∨ o = .eq)))
    ∧ (∀ (f : String) (x y : Value),
      compare_values x y = none →
      are_contradictory (.greaterThan f x) (.lessThanOrEqual f y) = true) := by
  constructor
  · intro f x y o h
    have hred : are_contradictory (.greaterThan f x) (.lessThanOrEqual f y)
        = (f == f && compare_values x y != some .lt) := rfl
    have hf : (f == f) = true := by simp
    rw [hred, h, hf, Bool.true_and]
    cases o <;> decide
  · intro f x y h
    have hred : are_contradictory (.greaterThan f x) (.lessThanOrEqual f y)
        = (f == f && compare_values x y != some .lt) := rfl
    have hf : (f == f) = true := by simp
    rw [hred, h, hf, Bool.true_and]
    decide

/-- C6 counterexample: `GreaterThan{limit, Integer 5}` vs
`LessThanOrEqual{limit, String "a"}` — the operands have no ordering
(`compare_values` is `none`, so "x >= y" does not hold under the value
ordering), yet the pair is classified as a Contradiction. -/
theorem cross_kind_gt_le_classified_contradiction :
    are_contradictory (.greaterThan "limit" (.integer 5)) (.lessThanOrEqual "limit" (.string "a"))
      = true
    ∧ compare_values (.integer 5) (.string "a") = none := ⟨rfl, rfl⟩

/-- C6 witness: the amended theorem applied at concrete comparable and
incomparable operand pairs. -/
theorem are_contradictory_gt_le_witness :
    (are_contradictory (.greaterThan "key_size" (.integer 4096))
        (.lessThanOrEqual "key_size" (.integer 2048)) = true ↔
      ((Ordering.gt = Ordering.gt) ∨ (Ordering.gt = Ordering.eq)))
    ∧ are_contradictory (.greaterThan "limit" (.integer 7))
        (.lessThanOrEqual "limit" (.string "z")) = true :=
  ⟨are_contradictory_gt_le_characterization.1 "key_size" (.integer 4096) (.integer 2048)
      .gt rfl,
   are_contradictory_gt_le_characterization.2 "limit" (.integer 7) (.string "z") rfl⟩

/-! ### C9 -/

/-- C9: `get_commands` of the exemption workflow saga emits a
`GrantExemption` command only when the current state is
`ExemptionUnderReview` and `has_sufficient_approvals()` holds, i.e. the
recorded approvals meet the risk-tiered requirement (4 for Critical risk, 3
for High, 2 for Medium, 1 otherwise).  Proved for every saga state, which
covers in particular every reachable one. -/
theorem get_commands_grant_gating :
    ∀ (s : ExemptionWorkflowSaga) (now : Timestamp),
      ((s.get_commands now).any isGrantExemptionCommand = true) →
      s.current_state = .exemptionUnderReview
      ∧ s.has_sufficient_approvals = true
      ∧ (match s.risk_assessment with
          | some (.critical, _) => 4
          | some (.high, _) => 3
          | some (.medium, _) => 2
          | _ => 1) ≤ s.approvals.length := by
  intro s now h
  unfold ExemptionWorkflowSaga.get_commands at h
  split at h
  · split at h
    · simp [isGrantExemptionCommand] at h
    · simp at h
  · rename_i hs
    split at h
    · rename_i ha
      refine ⟨hs, ha, ?_⟩
      unfold ExemptionWorkflowSaga.has_sufficient_approvals at ha
      exact of_decide_eq_true ha
    · simp at h
  · simp at h

/-- C9 witness: the gating theorem applied to a concrete saga under review
with a Medium risk assessment and two approvals, whose `get_commands` does
emit a `GrantExemption` command. -/
theorem get_commands_grant_gating_witness :
    fxSagaUR.current_state = .exemptionUnderReview
    ∧ fxSagaUR.has_sufficient_approvals = true
    ∧ (match fxSagaUR.risk_assessment with
        | some (.critical, _) => 4
        | some (.high, _) => 3
        | some (.medium, _) => 2
        | _ => 1) ≤ fxSagaUR.approvals.length :=
  get_commands_grant_gating fxSagaUR 0 (by decide)

/-! ### C10 -/

/-- C10: `evaluate_set` on an empty policy list never errors: it returns
Compliant under All and AtLeast(0), and NonCompliant with an empty violation
list under Any, Majority, and AtLeast(n) for every n ≥ 1. -/
theorem evaluate_set_empty_policies :
    ∀ (ev : PolicyEvaluator) (context : EvaluationContext) (now : Timestamp),
      ev.evaluate_set [] context now .all = .ok .compliant
      ∧ ev.evaluate_set [] context now .any = .ok (.nonCompliant [])
      ∧ ev.evaluate_set [] context now .majority = .ok (.nonCompliant [])
      ∧ ev.evaluate_set [] context now (.atLeast 0) = .ok .compliant
      ∧ (∀ n : Nat, 1 ≤ n →
          ev.evaluate_set [] context now (.atLeast n) = .ok (.nonCompliant [])) := by
  intro ev context now
  refine ⟨rfl, rfl, rfl, rfl, ?_⟩
  intro n hn
  have hred : ev.evaluate_set [] context now (.atLeast n)
      = if 0 ≥ n then Except.ok .compliant else Except.ok (.nonCompliant []) := rfl
  rw [hred, if_neg (by omega)]

/-- C10 witness: the empty-set laws at a concrete evaluator, context and
threshold. -/
theorem evaluate_set_empty_policies_witness :
    fxEvNoEx.evaluate_set [] fxCtx 0 .all = .ok .compliant
    ∧ fxEvNoEx.evaluate_set [] fxCtx 0 (.atLeast 2) = .ok (.nonCompliant []) :=
  ⟨(evaluate_set_empty_policies fxEvNoEx fxCtx 0).1,
   (evaluate_set_empty_policies fxEvNoEx fxCtx 0).2.2.2.2 2 (by omega)⟩

/-! ### C7 -/

/-- Members of `pairsAfter` are members of the underlying list. -/
theorem pairsAfter_mem {policies : List Policy} {pq : Policy × Policy}
    (h : pq ∈ pairsAfter policies) : pq.1 ∈ policies ∧ pq.2 ∈ policies := by
  induction policies with
  | nil => simp [pairsAfter] at h
  | cons p rest ih =>
    unfold pairsAfter at h
    rcases List.mem_append.mp h with hmem | hmem
    · rcases List.mem_map.mp hmem with ⟨q, hq, rfl⟩
      exact ⟨List.mem_cons_self _ _, List.mem_cons_of_mem _ hq⟩
    · rcases ih hmem with ⟨h1, h2⟩
      exact ⟨List.mem_cons_of_mem _ h1, List.mem_cons_of_mem _ h2⟩

/-- A rule conflict is only reported when the two rules share a field. -/
theorem check_rule_conflict_shares_field (rule1 rule2 : PolicyRule) (t : ConflictType)
    (h : check_rule_conflict rule1 rule2 = some t) :
    (extract_fields rule1.expression).any
      (fun f => (extract_fields rule2.expression).contains f) = true := by
  by_cases hc : (extract_fields rule1.expression).any
      (fun f => (extract_fields rule2.expression).contains f) = true
  · exact hc
  · exfalso
    unfold check_rule_conflict at h
    rw [if_pos (by simpa using hc)] at h
    exact Option.noConfusion h

/-- A policy-pair conflict is only reported for overlapping targets, and
comes from some conflicting rule pair, whose conflict type and the two
policies' ids it carries. -/
theorem check_policy_pair_sound (res : PolicyConflictResolver) (p q : Policy)
    (c : PolicyConflict) (h : check_policy_pair res p q = some c) :
    targets_overlap p.target q.target = true
    ∧ c.policy_ids = [p.id, q.id]
    ∧ ∃ r1 ∈ p.rules, ∃ r2 ∈ q.rules,
        check_rule_conflict r1 r2 = some c.conflict_type
        ∧ (extract_fields r1.expression).any
            (fun f => (extract_fields r2.expression).contains f) = true := by
  unfold check_policy_pair at h
  by_cases hov : targets_overlap p.target q.target = true
  · rw [if_neg (by simp [hov])] at h
    refine ⟨hov, ?_⟩
    rcases List.exists_of_findSome?_eq_some h with ⟨pair, hpair, hsome⟩
    rcases List.mem_flatMap.mp hpair with ⟨r1, hr1, hr1pair⟩
    rcases List.mem_map.mp hr1pair with ⟨r2, hr2, rfl⟩
    rcases Option.map_eq_some'.mp hsome with ⟨t, ht, hc⟩
    subst hc
    exact ⟨rfl, r1, hr1, r2, hr2, ht, check_rule_conflict_shares_field r1 r2 t ht⟩
  · have hov' : targets_overlap p.target q.target = false := by simpa using hov
    rw [if_pos (by simp [hov'])] at h
    exact Option.noConfusion h

/-- Concrete evaluation: the US/EU fixture pair yields exactly the
`fxConflictAB` contradiction (`targets_overlap` is defined by well-founded
recursion, so it is unfolded by rewriting instead of by `rfl`). -/
theorem fx_detect_conflicts_eq :
    fxResolver.detect_conflicts [fxPolicyA, fxPolicyB] = [fxConflictAB] := by
  have hov : targets_overlap fxPolicyA.target fxPolicyB.target = true := by
    rw [show fxPolicyA.target = PolicyTarget.global from rfl,
      show fxPolicyB.target = PolicyTarget.global from rfl]
    rw [targets_overlap]
  have hpair : check_policy_pair fxResolver fxPolicyA fxPolicyB = some fxConflictAB := by
    unfold check_policy_pair
    rw [hov]
    rfl
  simp [PolicyConflictResolver.detect_conflicts, pairsAfter, hpair]

/-- C7: `detect_conflicts` reports conflicts only between member policies
whose target scopes overlap, each conflict comes from a conflicting rule
pair sharing at least one field and names both policy ids; at most one
conflict per unordered pair of policies is reported; and on two same-target
policies with rules `Equal region "US"` vs `Equal region "EU"` it returns
exactly one Contradiction conflict naming both policies. -/
theorem detect_conflicts_characterization :
    (∀ (res : PolicyConflictResolver) (policies : List Policy) (c : PolicyConflict),
      c ∈ res.detect_conflicts policies →
      ∃ p ∈ policies, ∃ q ∈ policies,
        targets_overlap p.target q.target = true
        ∧ c.policy_ids = [p.id, q.id]
        ∧ ∃ r1 ∈ p.rules, ∃ r2 ∈ q.rules,
            check_rule_conflict r1 r2 = some c.conflict_type
            ∧ (extract_fields r1.expression).any
                (fun f => (extract_fields r2.expression).contains f) = true)
    ∧ (∀ (res : PolicyConflictResolver) (policies : List Policy),
        (res.detect_conflicts policies).length ≤ (pairsAfter policies).length)
    ∧ ((fxResolver.detect_conflicts [fxPolicyA, fxPolicyB]).map
        (fun c => (c.conflict_type, c.policy_ids))
        = [(ConflictType.contradiction, [fxPolicyA.id, fxPolicyB.id])]) := by
  refine ⟨?_, ?_, by rw [fx_detect_conflicts_eq]; rfl⟩
  · intro res policies c hc
    rcases List.mem_filterMap.mp hc with ⟨pair, hpair, hsome⟩
    rcases pairsAfter_mem hpair with ⟨hp, hq⟩
    rcases check_policy_pair_sound res pair.1 pair.2 c hsome with ⟨hov, hids, hrules⟩
    exact ⟨pair.1, hp, pair.2, hq, hov, hids, hrules⟩
  · intro res policies
    exact List.length_filterMap_le _ _

/-- C7 witness: the soundness part applied to the concrete conflict that
`detect_conflicts` reports for the US/EU fixture policies. -/
theorem detect_conflicts_characterization_witness :
    ∃ p ∈ [fxPolicyA, fxPolicyB], ∃ q ∈ [fxPolicyA, fxPolicyB],
      targets_overlap p.target q.target = true
      ∧ fxConflictAB.policy_ids = [p.id, q.id]
      ∧ ∃ r1 ∈ p.rules, ∃ r2 ∈ q.rules,
          check_rule_conflict r1 r2 = some fxConflictAB.conflict_type
          ∧ (extract_fields r1.expression).any
              (fun f => (extract_fields r2.expression).contains f) = true :=
  detect_conflicts_characterization.1 fxResolver [fxPolicyA, fxPolicyB] fxConflictAB
    (by rw [fx_detect_conflicts_eq]
        exact List.mem_singleton.mpr rfl)

/-! ### C8 -/

/-- Once a policy is built, replay can no longer fail: folding the load step
from `some p` succeeds and is the plain `applyEvent` fold. -/
theorem load_step_foldlM_some (fresh : PolicyId) (now : Timestamp)
    (events : List PolicyEvent) (p : Policy) :
    events.foldlM (load_step fresh now) (some p)
      = .ok (some (events.foldl Policy.applyEvent p)) := by
  induction events generalizing p with
  | nil => rfl
  | cons e es ih =>
    rw [List.foldlM_cons]
    have hstep : load_step fresh now (some p) e = .ok (some (p.applyEvent e)) := rfl
    rw [hstep]
    show es.foldlM (load_step fresh now) (some (p.applyEvent e)) = _
    rw [ih (p.applyEvent e)]
    rfl

/-- C8: `Repository.load` returns `Ok(None)` on an empty history, an
`InvalidSequence` error (and no partially-built aggregate) when the first
event of a non-empty history is not `PolicyCreated`, and otherwise the
policy obtained by folding `apply_event_pure` over the entire ordered
history starting from the creation event. -/
theorem repository_load_characterization :
    (∀ (fresh : PolicyId) (now : Timestamp), load fresh now [] = .ok none)
    ∧ (∀ (fresh : PolicyId) (now : Timestamp) (e : PolicyEvent) (es : List PolicyEvent),
        isPolicyCreatedEvent e = false →
        load fresh now (e :: es)
          = .error (.invalidSequence
              ("First event must be PolicyCreated, got: " ++ e.event_type)))
    ∧ (∀ (fresh : PolicyId) (now : Timestamp) (c : PolicyCreated) (es : List PolicyEvent),
        load fresh now (.policyCreated c :: es)
          = .ok (some (es.foldl Policy.applyEvent
              ((Policy.new fresh now c.name c.description).applyEvent
                (.policyCreated c))))) := by
  refine ⟨fun fresh now => rfl, ?_, ?_⟩
  · intro fresh now e es hnot
    cases e <;> first
      | rfl
      | simp [isPolicyCreatedEvent] at hnot
  · intro fresh now c es
    have h1 : load fresh now (.policyCreated c :: es)
        = (es.foldlM (load_step fresh now)
            (some ((Policy.new fresh now c.name c.description).applyEvent
              (.policyCreated c)))) >>= fun policy => pure policy := rfl
    rw [h1, load_step_foldlM_some]
    rfl

/-- C8 witness: the characterization applied to a concrete two-event history
and to a history starting with a non-creation event. -/
theorem repository_load_characterization_witness :
    (load ⟨99⟩ 0 [.policyApproved fxApprovedPayload]
      = .error (.invalidSequence
          ("First event must be PolicyCreated, got: "
            ++ (PolicyEvent.policyApproved fxApprovedPayload).event_type)))
    ∧ (load ⟨99⟩ 0 [.policyCreated fxCreatedPayload, .policyApproved fxApprovedPayload]
        = .ok (some ([PolicyEvent.policyApproved fxApprovedPayload].foldl Policy.applyEvent
            ((Policy.new ⟨99⟩ 0 fxCreatedPayload.name fxCreatedPayload.description).applyEvent
              (.policyCreated fxCreatedPayload))))) :=
  ⟨repository_load_characterization.2.1 ⟨99⟩ 0 (.policyApproved fxApprovedPayload)
      [] rfl,
   repository_load_characterization.2.2 ⟨99⟩ 0 fxCreatedPayload
      [.policyApproved fxApprovedPayload]⟩

/-! ### C2 -/

/-- An applying exemption is in particular valid at evaluation time. -/
theorem exemption_applies_valid (exemption : PolicyExemption) (context : EvaluationContext)
    (now : Timestamp) (h : exemption_applies exemption context now = true) :
    exemption.is_valid now = true := by
  by_cases hv : exemption.is_valid now = true
  · exact hv
  · exfalso
    have hv' : exemption.is_valid now = false := by simpa using hv
    unfold exemption_applies at h
    rw [if_pos (by simp [hv'])] at h
    exact Bool.noConfusion h

/-- C2 (amended): for an effective policy, if some registered exemption is
valid at evaluation time and applies to the context, `evaluate` returns
`CompliantWithExemption` carrying the id of the FIRST registered exemption
that applies (its scope matching the context and all its conditions
holding), and evaluates none of the policy's rules. -/
theorem evaluate_exemption_short_circuit :
    ∀ (ev : PolicyEvaluator) (policy : Policy) (context : EvaluationContext)
      (now : Timestamp) (exemption : PolicyExemption),
      policy.is_effective now = true →
      (ev.exemptionsFor policy.id).find?
          (fun e => exemption_applies e context now) = some exemption →
      exemption.is_valid now = true
      ∧ exemption_applies exemption context now = true
      ∧ ∃ e, ev.evaluate policy context now = .ok e
          ∧ e.overall_result = .compliantWithExemption exemption.id
          ∧ e.rule_results = []
          ∧ e.policy_id = policy.id := by
  intro ev policy context now exemption heff hfind
  have happ : exemption_applies exemption context now = true := by
    simpa using List.find?_some hfind
  refine ⟨exemption_applies_valid exemption context now happ, happ, ?_⟩
  have h1 : ev.evaluate policy context now
      = .ok { PolicyEvaluation.new policy.id context now with
          overall_result := .compliantWithExemption exemption.id } := by
    unfold PolicyEvaluator.evaluate
    rw [heff, hfind]
    rfl
  exact ⟨_, h1, rfl, rfl, rfl⟩

/-- C2 counterexample: (i) with two registered exemptions that are both
valid and applicable, the result carries the FIRST one's id, not "that
exemption's" id for an arbitrary applying exemption: `fxExemption2` (id 2)
is valid and applies, yet the result carries id 1; (ii) for a non-effective
(Draft) policy the call errors with `PolicyNotActive` instead of returning
`CompliantWithExemption`, so the claim also needs the policy to be
effective. -/
theorem exemption_short_circuit_counterexample :
    (exemption_applies fxExemption2 fxCtx 0 = true
      ∧ fxExemption2.is_valid 0 = true
      ∧ fxExemption2.id = ⟨2⟩
      ∧ ((fxEvTwoEx.evaluate fxPolicyEx fxCtx 0).map (fun e => e.overall_result))
          = .ok (.compliantWithExemption ⟨1⟩)
      ∧ ComplianceResult.compliantWithExemption ⟨1⟩
          ≠ ComplianceResult.compliantWithExemption ⟨2⟩)
    ∧ (exemption_applies fxExemption1 fxCtx 0 = true
      ∧ fxEvTwoEx.evaluate fxPolicyDraftEx fxCtx 0 = .error (.policyNotActive ⟨10⟩)) := by
  exact ⟨⟨rfl, rfl, rfl, rfl, by decide⟩, ⟨rfl, rfl⟩⟩

/-- C2 witness: the amended short-circuit theorem applied to the fixture
evaluator, effective policy and first registered exemption. -/
theorem evaluate_exemption_short_circuit_witness :
    fxExemption1.is_valid 0 = true
    ∧ exemption_applies fxExemption1 fxCtx 0 = true
    ∧ ∃ e, fxEvTwoEx.evaluate fxPolicyEx fxCtx 0 = .ok e
        ∧ e.overall_result = .compliantWithExemption fxExemption1.id
        ∧ e.rule_results = []
        ∧ e.policy_id = fxPolicyEx.id :=
  evaluate_exemption_short_circuit fxEvTwoEx fxPolicyEx fxCtx 0 fxExemption1
    (by decide) rfl

/-! ### C1 -/

/-- With no applying exemption, `evaluate` reduces to the rule-evaluation
fold. -/
theorem evaluate_no_exemption_eq_fold (ev : PolicyEvaluator) (policy : Policy)
    (context : EvaluationContext) (now : Timestamp)
    (heff : policy.is_effective now = true)
    (hex : ∀ ex ∈ ev.exemptionsFor policy.id, exemption_applies ex context now = false) :
    ev.evaluate policy context now
      = policy.rules.foldlM
          (fun acc rule => (evaluate_rule rule context).map acc.add_rule_result)
          (PolicyEvaluation.new policy.id context now) := by
  have hfind : (ev.exemptionsFor policy.id).find?
      (fun e => exemption_applies e context now) = none :=
    List.find?_eq_none.mpr (fun x hx => by simp [hex x hx])
  unfold PolicyEvaluator.evaluate
  rw [heff, hfind]
  rfl

/-- C1 (amended): for an effective policy with no applying registered
exemption, if evaluating some rule fails (missing context field or
unregistered custom predicate) the whole call returns an error and no
`PolicyEvaluation`; otherwise it returns a `PolicyEvaluation` with one
`RuleResult` per rule of the policy, in rule order, whose `overall_result`
is Compliant when every rule passed and, when at least one rule failed,
NonCompliant carrying the violations of all failed rules EXCEPT the last
failed one (the full violation list remains available through
`violations()`). -/
theorem evaluate_rules_characterization :
    ∀ (ev : PolicyEvaluator) (policy : Policy) (context : EvaluationContext)
      (now : Timestamp),
      policy.is_effective now = true →
      (∀ ex ∈ ev.exemptionsFor policy.id, exemption_applies ex context now = false) →
      ((∃ r ∈ policy.rules, (evaluate_rule r context).isOk = false) →
        ∃ err, ev.evaluate policy context now = .error err)
      ∧ ((∀ r ∈ policy.rules, (evaluate_rule r context).isOk = true) →
        ∃ e, ev.evaluate policy context now = .ok e
          ∧ e.policy_id = policy.id
          ∧ e.rule_results = policy.rules.map (fun r => rule_outcome r context)
          ∧ e.overall_result =
              (if (policy.rules.map (fun r => rule_outcome r context)).any
                    (fun r => !r.passed)
               then ComplianceResult.nonCompliant
                  ((((policy.rules.map (fun r => rule_outcome r context)).filter
                      (fun r => !r.passed)).dropLast).map RuleResult.to_violation)
               else .compliant)
          ∧ e.violations = ((policy.rules.map (fun r => rule_outcome r context)).filter
              (fun r => !r.passed)).map RuleResult.to_violation) := by
  intro ev policy context now heff hex
  have hred := evaluate_no_exemption_eq_fold ev policy context now heff hex
  constructor
  · intro hbad
    rcases foldlM_rules_error context policy.rules
        (PolicyEvaluation.new policy.id context now) hbad with ⟨err, herr⟩
    exact ⟨err, by rw [hred, herr]⟩
  · intro hall
    set results := policy.rules.map (fun r => rule_outcome r context) with hresults
    set acc := PolicyEvaluation.new policy.id context now with hacc
    have hok : policy.rules.foldlM
        (fun acc rule => (evaluate_rule rule context).map acc.add_rule_result) acc
        = .ok (results.foldl PolicyEvaluation.add_rule_result acc) :=
      (foldlM_rules_ok_iff context policy.rules acc
        (results.foldl PolicyEvaluation.add_rule_result acc)).mpr ⟨hall, rfl⟩
    refine ⟨results.foldl PolicyEvaluation.add_rule_result acc, by rw [hred, hok], ?_, ?_, ?_, ?_⟩
    · have h1 := (foldl_add_rule_result results acc).1
      -- the policy id field is never touched by add_rule_result
      have : ∀ (rs : List RuleResult) (a : PolicyEvaluation),
          (rs.foldl PolicyEvaluation.add_rule_result a).policy_id = a.policy_id := by
        intro rs
        induction rs with
        | nil => intro a; rfl
        | cons r rs ih =>
          intro a
          have hstep : (r :: rs).foldl PolicyEvaluation.add_rule_result a
              = rs.foldl PolicyEvaluation.add_rule_result (a.add_rule_result r) := rfl
          rw [hstep, ih]
          unfold PolicyEvaluation.add_rule_result
          by_cases hp : r.passed <;> simp [hp]
      rw [this]
      rfl
    · have h1 := (foldl_add_rule_result results acc).1
      rw [h1]
      simp [hacc, PolicyEvaluation.new]
    · have h2 := (foldl_add_rule_result results acc).2
      rw [h2]
      have hnil : acc.rule_results = [] := rfl
      rw [hnil]
      simp only [List.nil_append]
      rfl
    · have h1 := (foldl_add_rule_result results acc).1
      unfold PolicyEvaluation.violations
      rw [h1]
      have hnil : acc.rule_results = [] := rfl
      rw [hnil]
      simp only [List.nil_append]

/-- C1 counterexample: on an effective policy (no exemptions) whose single
rule fails, `evaluate` succeeds with `overall_result = NonCompliant []`:
the carried violation list omits the (last) failed rule's violation, which
`violations()` does report, so the overall result does NOT carry exactly the
violations of all failed rules. -/
theorem evaluate_overall_misses_last_violation :
    ((fxEvNoEx.evaluate fxPolicyOneFail fxCtx 0).map
        (fun e => (e.overall_result, e.violations)))
      = .ok (ComplianceResult.nonCompliant [], [fxViolationUS])
    ∧ ComplianceResult.nonCompliant []
        ≠ ComplianceResult.nonCompliant [fxViolationUS] := by
  exact ⟨rfl, by decide⟩

/-- C1 witness: the amended characterization applied to the two-failing-rule
fixture policy, where the overall result carries only the first failed
rule's violation. -/
theorem evaluate_rules_characterization_witness :
    ∃ e, fxEvNoEx.evaluate fxPolicyTwoFail fxCtx 0 = .ok e
      ∧ e.policy_id = fxPolicyTwoFail.id
      ∧ e.rule_results = fxPolicyTwoFail.rules.map (fun r => rule_outcome r fxCtx)
      ∧ e.overall_result =
          (if (fxPolicyTwoFail.rules.map (fun r => rule_outcome r fxCtx)).any
                (fun r => !r.passed)
           then ComplianceResult.nonCompliant
              ((((fxPolicyTwoFail.rules.map (fun r => rule_outcome r fxCtx)).filter
                  (fun r => !r.passed)).dropLast).map RuleResult.to_violation)
           else .compliant)
      ∧ e.violations = ((fxPolicyTwoFail.rules.map (fun r => rule_outcome r fxCtx)).filter
          (fun r => !r.passed)).map RuleResult.to_violation :=
  (evaluate_rules_characterization fxEvNoEx fxPolicyTwoFail fxCtx 0
    (by decide) (by decide)).2 (by decide)

/-! ### C3 -/

/-- Members of `evalsOf` are successful evaluations of member policies. -/
theorem evalsOf_mem (ev : PolicyEvaluator) (policies : List Policy)
    (context : EvaluationContext) (now : Timestamp) (e : PolicyEvaluation)
    (he : e ∈ evalsOf ev policies context now) :
    ∃ p ∈ policies, ev.evaluate p context now = .ok e := by
  rcases List.mem_filterMap.mp he with ⟨p, hp, hopt⟩
  cases hcase : ev.evaluate p context now with
  | error err => rw [hcase] at hopt; exact Option.noConfusion hopt
  | ok v =>
    rw [hcase] at hopt
    exact ⟨p, hp, by rw [hcase, Option.some.inj hopt]⟩

/-- An evaluation `evaluate` returns as compliant records no violation. -/
theorem evaluate_ok_compliant_no_violations (ev : PolicyEvaluator) (policy : Policy)
    (context : EvaluationContext) (now : Timestamp) (e : PolicyEvaluation)
    (h : ev.evaluate policy context now = .ok e) (hc : e.is_compliant = true) :
    e.violations = [] := by
  by_cases heff : policy.is_effective now = true
  · unfold PolicyEvaluator.evaluate at h
    rw [heff, if_neg (by decide)] at h
    cases hfind : (ev.exemptionsFor policy.id).find?
        (fun ex => exemption_applies ex context now) with
    | some ex =>
      rw [hfind] at h
      have he : { PolicyEvaluation.new policy.id context now with
          overall_result := .compliantWithExemption ex.id } = e := Except.ok.inj h
      rw [← he]
      rfl
    | none =>
      rw [hfind] at h
      replace h : policy.rules.foldlM
          (fun acc rule => (evaluate_rule rule context).map acc.add_rule_result)
          (PolicyEvaluation.new policy.id context now) = .ok e := h
      rw [foldlM_rules_ok_iff] at h
      rcases h with ⟨-, he⟩
      subst he
      set results := policy.rules.map (fun r => rule_outcome r context) with hres
      set acc := PolicyEvaluation.new policy.id context now with hacc
      have h1 := (foldl_add_rule_result results acc).1
      have h2 := (foldl_add_rule_result results acc).2
      by_cases hf : results.any (fun r => !r.passed) = true
      · exfalso
        rw [if_pos hf] at h2
        unfold PolicyEvaluation.is_compliant at hc
        rw [h2] at hc
        simp [ComplianceResult.is_compliant] at hc
      · have hf' : results.any (fun r => !r.passed) = false := by simpa using hf
        have hfilter : results.filter (fun r => !r.passed) = [] := by
          rw [List.filter_eq_nil_iff]
          intro a ha
          simpa using List.any_eq_false.mp hf' a ha
        unfold PolicyEvaluation.violations
        rw [h1]
        have hnil : acc.rule_results = [] := rfl
        rw [hnil, List.nil_append, hfilter]
        rfl
  · exfalso
    have heff' : policy.is_effective now = false := by simpa using heff
    unfold PolicyEvaluator.evaluate at h
    rw [heff', if_pos (by decide)] at h
    exact Except.noConfusion h

/-- When each member evaluation succeeds, the evaluation `mapM` inside
`evaluate_set` returns exactly `evalsOf`. -/
theorem mapM_evaluate_ok (ev : PolicyEvaluator) (context : EvaluationContext)
    (now : Timestamp) (policies : List Policy)
    (h : ∀ p ∈ policies, (ev.evaluate p context now).isOk = true) :
    policies.mapM (fun p => ev.evaluate p context now)
      = .ok (evalsOf ev policies context now) := by
  induction policies with
  | nil => rfl
  | cons p ps ih =>
    have hp := h p (List.mem_cons_self p ps)
    cases hcase : ev.evaluate p context now with
    | error err => rw [hcase] at hp; simp [Except.isOk, Except.toBool] at hp
    | ok e =>
      have hrest := ih (fun q hq => h q (List.mem_cons_of_mem _ hq))
      have hcons : evalsOf ev (p :: ps) context now = e :: evalsOf ev ps context now := by
        simp only [evalsOf, List.filterMap_cons, hcase]
        rfl
      rw [List.mapM_cons, hcase, hrest, hcons]
      rfl

/-- Compliant members contribute no violations, so concatenating all
members' violations equals concatenating the non-compliant members'. -/
theorem flatMap_violations_noncompliant (l : List PolicyEvaluation)
    (h : ∀ e ∈ l, e.is_compliant = true → e.violations = []) :
    l.flatMap (fun e => e.violations)
      = (l.filter (fun e => !e.is_compliant)).flatMap (fun e => e.violations) := by
  induction l with
  | nil => rfl
  | cons e es ih =>
    have htail := ih (fun x hx => h x (List.mem_cons_of_mem _ hx))
    have hcons : (e :: es).flatMap (fun e => e.violations)
        = e.violations ++ es.flatMap (fun e => e.violations) := rfl
    by_cases hc : e.is_compliant = true
    · have hv : e.violations = [] := h e (List.mem_cons_self _ _) hc
      rw [hcons, hv, List.nil_append, htail, List.filter_cons_of_neg (by simp [hc])]
    · have hc' : e.is_compliant = false := by simpa using hc
      rw [hcons, htail, List.filter_cons_of_pos (by simp [hc'])]
      rfl

/-- C3: when every per-policy evaluation succeeds, `evaluate_set` is
Compliant under All iff no member evaluation records any violation, under
Any iff some member is compliant, under Majority iff strictly more than half
the members are compliant, and under AtLeast(n) iff at least n members are
compliant; each NonCompliant outcome carries the concatenated violations of
all members, which equal the concatenated violations of the non-compliant
members.  In particular, for three policies with per-policy compliance
[true, true, false], All is NonCompliant, Any is Compliant, Majority is
Compliant (2/3 > 1/2) and AtLeast(3) is NonCompliant, the NonCompliant
results carrying the failing member's violations. -/
theorem evaluate_set_composition_laws :
    (∀ (ev : PolicyEvaluator) (policies : List Policy) (context : EvaluationContext)
      (now : Timestamp),
      (∀ p ∈ policies, (ev.evaluate p context now).isOk = true) →
      ((ev.evaluate_set policies context now .all = .ok .compliant
          ↔ ∀ e ∈ evalsOf ev policies context now, e.violations = [])
      ∧ (¬ (∀ e ∈ evalsOf ev policies context now, e.violations = []) →
          ev.evaluate_set policies context now .all
            = .ok (.nonCompliant ((evalsOf ev policies context now).flatMap
                (fun e => e.violations))))
      ∧ (ev.evaluate_set policies context now .any = .ok .compliant
          ↔ ∃ e ∈ evalsOf ev policies context now, e.is_compliant = true)
      ∧ (¬ (∃ e ∈ evalsOf ev policies context now, e.is_compliant = true) →
          ev.evaluate_set policies context now .any
            = .ok (.nonCompliant ((evalsOf ev policies context now).flatMap
                (fun e => e.violations))))
      ∧ (ev.evaluate_set policies context now .majority = .ok .compliant
          ↔ 2 * ((evalsOf ev policies context now).filter
              (fun e => e.is_compliant)).length
            > (evalsOf ev policies context now).length)
      ∧ (¬ (2 * ((evalsOf ev policies context now).filter
              (fun e => e.is_compliant)).length
            > (evalsOf ev policies context now).length) →
          ev.evaluate_set policies context now .majority
            = .ok (.nonCompliant ((evalsOf ev policies context now).flatMap
                (fun e => e.violations))))
      ∧ (∀ n : Nat, ev.evaluate_set policies context now (.atLeast n) = .ok .compliant
          ↔ ((evalsOf ev policies context now).filter
              (fun e => e.is_compliant)).length ≥ n)
      ∧ (∀ n : Nat, ¬ (((evalsOf ev policies context now).filter
              (fun e => e.is_compliant)).length ≥ n) →
          ev.evaluate_set policies context now (.atLeast n)
            = .ok (.nonCompliant ((evalsOf ev policies context now).flatMap
                (fun e => e.violations))))
      ∧ ((evalsOf ev policies context now).flatMap (fun e => e.violations)
          = ((evalsOf ev policies context now).filter (fun e => !e.is_compliant)).flatMap
              (fun e => e.violations))))
    ∧ (fxEvNoEx.evaluate_set [fxPolicyPass, fxPolicyPass2, fxPolicyOneFail] fxCtx 0 .all
        = .ok (.nonCompliant [fxViolationUS])
      ∧ fxEvNoEx.evaluate_set [fxPolicyPass, fxPolicyPass2, fxPolicyOneFail] fxCtx 0 .any
        = .ok .compliant
      ∧ fxEvNoEx.evaluate_set [fxPolicyPass, fxPolicyPass2, fxPolicyOneFail] fxCtx 0 .majority
        = .ok .compliant
      ∧ fxEvNoEx.evaluate_set [fxPolicyPass, fxPolicyPass2, fxPolicyOneFail] fxCtx 0
          (.atLeast 3)
        = .ok (.nonCompliant [fxViolationUS])) := by
  refine ⟨?_, rfl, rfl, rfl, rfl⟩
  intro ev policies context now hall
  have hmapm := mapM_evaluate_ok ev context now policies hall
  set evals := evalsOf ev policies context now with hevals
  have hAll : ev.evaluate_set policies context now .all
      = (if (evals.flatMap (fun e => e.violations)).isEmpty then Except.ok .compliant
         else .ok (.nonCompliant (evals.flatMap (fun e => e.violations)))) := by
    unfold PolicyEvaluator.evaluate_set
    rw [hmapm]
    rfl
  have hAny : ev.evaluate_set policies context now .any
      = (if evals.any (fun e => e.is_compliant) then Except.ok .compliant
         else .ok (.nonCompliant (evals.flatMap (fun e => e.violations)))) := by
    unfold PolicyEvaluator.evaluate_set
    rw [hmapm]
    rfl
  have hMaj : ev.evaluate_set policies context now .majority
      = (if (evals.filter (fun e => e.is_compliant)).length > evals.length / 2
         then Except.ok .compliant
         else .ok (.nonCompliant (evals.flatMap (fun e => e.violations)))) := by
    unfold PolicyEvaluator.evaluate_set
    rw [hmapm]
    rfl
  have hAtLeast : ∀ n : Nat, ev.evaluate_set policies context now (.atLeast n)
      = (if (evals.filter (fun e => e.is_compliant)).length ≥ n
         then Except.ok .compliant
         else .ok (.nonCompliant (evals.flatMap (fun e => e.violations)))) := by
    intro n
    unfold PolicyEvaluator.evaluate_set
    rw [hmapm]
    rfl
  have hcompl : ∀ e ∈ evals, e.is_compliant = true → e.violations = [] := by
    intro e he hc
    rcases evalsOf_mem ev policies context now e he with ⟨p, -, hok⟩
    exact evaluate_ok_compliant_no_violations ev p context now e hok hc
  refine ⟨?_, ?_, ?_, ?_, ?_, ?_, ?_, ?_, flatMap_violations_noncompliant evals hcompl⟩
  · rw [hAll]
    by_cases hempty : (evals.flatMap (fun e => e.violations)).isEmpty = true
    · rw [if_pos hempty]
      exact iff_of_true rfl
        (List.flatMap_eq_nil_iff.mp (List.isEmpty_iff.mp hempty))
    · rw [if_neg hempty]
      exact iff_of_false (by simp)
        (fun hp => hempty (List.isEmpty_iff.mpr (List.flatMap_eq_nil_iff.mpr hp)))
  · intro hnp
    rw [hAll, if_neg (fun hempty =>
      hnp (List.flatMap_eq_nil_iff.mp (List.isEmpty_iff.mp hempty)))]
  · rw [hAny]
    by_cases ha : evals.any (fun e => e.is_compliant) = true
    · rw [if_pos ha]
      exact iff_of_true rfl (List.any_eq_true.mp ha)
    · rw [if_neg ha]
      exact iff_of_false (by simp) (fun hex => ha (List.any_eq_true.mpr hex))
  · intro hno
    rw [hAny, if_neg (fun ha => hno (List.any_eq_true.mp ha))]
  · rw [hMaj]
    by_cases hm : (evals.filter (fun e => e.is_compliant)).length > evals.length / 2
    · rw [if_pos hm]
      exact iff_of_true rfl (by omega)
    · rw [if_neg hm]
      exact iff_of_false (by simp) (fun hgt => hm (by omega))
  · intro hno
    rw [hMaj, if_neg (fun hm => hno (by omega))]
  · intro n
    rw [hAtLeast n]
    by_cases hn : (evals.filter (fun e => e.is_compliant)).length ≥ n
    · rw [if_pos hn]
      exact iff_of_true rfl hn
    · rw [if_neg hn]
      exact iff_of_false (by simp) hn
  · intro n hno
    rw [hAtLeast n, if_neg hno]

/-- C3 witness: the composition laws at a concrete three-policy list with
per-policy compliance [true, true, false]: Any and Majority yield Compliant,
All and AtLeast(3) yield NonCompliant carrying the failing member's
violations. -/
theorem evaluate_set_composition_laws_witness :
    fxEvNoEx.evaluate_set [fxPolicyPass, fxPolicyPass2, fxPolicyOneFail] fxCtx 0 .any
      = .ok .compliant
    ∧ fxEvNoEx.evaluate_set [fxPolicyPass, fxPolicyPass2, fxPolicyOneFail] fxCtx 0 .majority
      = .ok .compliant
    ∧ fxEvNoEx.evaluate_set [fxPolicyPass, fxPolicyPass2, fxPolicyOneFail] fxCtx 0 .all
      = .ok (.nonCompliant
          ((evalsOf fxEvNoEx [fxPolicyPass, fxPolicyPass2, fxPolicyOneFail] fxCtx 0).flatMap
            (fun e => e.violations)))
    ∧ fxEvNoEx.evaluate_set [fxPolicyPass, fxPolicyPass2, fxPolicyOneFail] fxCtx 0 (.atLeast 3)
      = .ok (.nonCompliant
          ((evalsOf fxEvNoEx [fxPolicyPass, fxPolicyPass2, fxPolicyOneFail] fxCtx 0).flatMap
            (fun e => e.violations))) := by
  have h := evaluate_set_composition_laws.1 fxEvNoEx
    [fxPolicyPass, fxPolicyPass2, fxPolicyOneFail] fxCtx 0 (by decide)
  exact ⟨h.2.2.1.mpr (by decide), h.2.2.2.2.1.mpr (by decide),
    h.2.1 (by decide), h.2.2.2.2.2.2.2.1 3 (by decide)⟩

end PolicyDomain
